import Mathlib

/-!
Verification development for the pyjr100emu emulation core.

Shallow embedding of the Python sources:
  src/jr100emu/cpu/cpu.py          (MB8861 CPU core)
  src/jr100emu/via/r6522.py        (R6522 VIA)
  src/jr100emu/memory/__init__.py  (memory system and devices)
  src/jr100emu/system/computer.py  (scheduler)
  src/jr100emu/jr100/keyboard.py   (keyboard matrix)
  src/jr100emu/jr100/memory.py     (JR-100 memory map devices)
  src/jr100emu/emulator/file/program.py (BASIC text loader)

Machine integers are modeled as Nat (or Int where Python values go negative),
with Python bit masks written explicitly:
  x & 0xFF   on a nonnegative value is  x % 256
  x & 0xFFFF on a nonnegative value is  x % 65536
  x & m      for other masks is        x &&& m
  x & ~m     on a nonnegative value is  x ^^^ (x &&& m)   (bitwise and-not)
  x & 0x1FF  on a possibly-negative Int is (x % 512 : Int) via emod.
-/

namespace Spec2Proof

/-- Python value & 0xFF for a nonnegative operand. -/
def mask8 (n : Nat) : Nat := n % 256

/-- Python value & 0xFFFF for a nonnegative operand. -/
def mask16 (n : Nat) : Nat := n % 65536

/-- Python x & ~v for nonnegative operands (clears in x every bit set in v). -/
def andNot (x v : Nat) : Nat := x ^^^ (x &&& v)

/-- CPU condition code register flags, mirroring dataclass CPUFlags of cpu.py. -/
structure CPUFlags where
  carry_h : Bool := false
  carry_i : Bool := false
  carry_n : Bool := false
  carry_z : Bool := false
  carry_v : Bool := false
  carry_c : Bool := false
  deriving DecidableEq, Repr

/-- CPU register file, mirroring dataclass CPURegisters of cpu.py. -/
structure CPURegisters where
  acc_a : Nat := 0
  acc_b : Nat := 0
  index : Nat := 0
  stack_pointer : Nat := 0
  program_counter : Nat := 0
  deriving DecidableEq, Repr

/-- CPU pending-event flags, mirroring dataclass CPUStatus of cpu.py. -/
structure CPUStatus where
  reset_requested : Bool := false
  nmi_requested : Bool := false
  irq_requested : Bool := false
  halt_requested : Bool := false
  halt_processed : Bool := false
  fetch_wai : Bool := false
  deriving DecidableEq, Repr

/-- MB8861._to_signed8: value & 0xFF, then value - 0x100 if bit 7 else value. -/
def to_signed8 (value : Nat) : Int :=
  let v := mask8 value
  if v &&& 128 ≠ 0 then (v : Int) - 256 else (v : Int)

/-- MB8861._add8: 8-bit add returning the result byte and the updated flags. -/
def add8 (f : CPUFlags) (x y : Nat) : Nat × CPUFlags :=
  let a := mask8 x
  let b := mask8 y
  let result := (a + b) % 512
  let value := mask8 result
  let cn : Bool := value &&& 128 != 0
  let sa := to_signed8 a
  let sb := to_signed8 b
  (value,
   { f with
     carry_h := decide ((a &&& 15) + (b &&& 15) > 15)
     carry_n := cn
     carry_z := decide (value = 0)
     carry_v := (decide (sa > 0) && decide (sb > 0) && cn) ||
                (decide (sa < 0) && decide (sb < 0) && !cn)
     carry_c := decide (result > 255) })

/-- MB8861._neg: two's-complement negate of an 8-bit value with flag updates.
The Python expression (-(x & 0xFF)) & 0x1FF is computed through Int.emod 512. -/
def neg (f : CPUFlags) (x : Nat) : Nat × CPUFlags :=
  let result : Nat := ((-(mask8 x : Int)) % 512).toNat
  let value := mask8 result
  (value,
   { f with
     carry_n := value &&& 128 != 0
     carry_z := decide (value = 0)
     carry_v := decide (value = 128)
     carry_c := decide (value = 0) })

/-- MB8861._ora: 8-bit inclusive or with flag updates. -/
def ora (f : CPUFlags) (x y : Nat) : Nat × CPUFlags :=
  let result := (x ||| y) &&& 255
  (result,
   { f with
     carry_n := result &&& 128 != 0
     carry_z := decide (result = 0)
     carry_v := false })

/-- Flat 64 KiB byte memory used as the CPU-visible RAM image for the
CPU-local claims (every cell readable and writable, as class RAM of
memory/__init__.py behaves). -/
def CpuMem : Type := Nat → Nat

/-- RAM store of one byte through the mapper; the address is reduced mod 2^16
and the value mod 2^8 exactly as MB8861._store8 and Memory.store8 mask them. -/
def mstore8 (m : CpuMem) (address value : Nat) : CpuMem :=
  fun a => if a = mask16 address then mask8 value else m a

/-- RAM load of one byte; masks mirror MB8861._load8 and Memory.load8. -/
def mload8 (m : CpuMem) (address : Nat) : Nat :=
  mask8 (m (mask16 address))

/-- MemorySystem.store16: high byte at addr, low byte at (addr+1) & 0xFFFF.
MB8861._store16 masks the value to 16 bits before handing it over, so the
CPU-side uses below pass mask16 of the register value. -/
def mstore16 (m : CpuMem) (address value : Nat) : CpuMem :=
  mstore8 (mstore8 m address ((value >>> 8) &&& 255)) (address + 1) (value &&& 255)

/-- MemorySystem.load16: two independent byte loads, big-endian combine. -/
def mload16 (m : CpuMem) (address : Nat) : Nat :=
  ((mload8 m address) <<< 8 ||| mload8 m (address + 1)) &&& 65535

/-- Machine state for the CPU-level claims: registers, flags, status, the
attached flat memory and the scheduler clock (computer.clock_count). -/
structure Machine where
  regs : CPURegisters
  flags : CPUFlags
  status : CPUStatus
  mem : CpuMem
  clock : Nat

/-- CCR byte pushed by MB8861._push_all_registers: bits 6-7 forced to 1,
then H, I, N, Z, V, C at bits 5 down to 0. -/
def ccrByte (f : CPUFlags) : Nat :=
  let c0 := 192
  let c1 := if f.carry_h then c0 ||| 32 else c0
  let c2 := if f.carry_i then c1 ||| 16 else c1
  let c3 := if f.carry_n then c2 ||| 8 else c2
  let c4 := if f.carry_z then c3 ||| 4 else c3
  let c5 := if f.carry_v then c4 ||| 2 else c4
  if f.carry_c then c5 ||| 1 else c5

/-- Python (a - k) & 0xFFFF for 0 ≤ a < 2^16 and k ≤ 2^16. -/
def sub16 (a k : Nat) : Nat := (a + 65536 - k) % 65536

/-- MB8861._push_all_registers: push PC, X, A, B, CCR onto the stack and
drop SP by 7. -/
def push_all_registers (m : Machine) : Machine :=
  let sp := mask16 m.regs.stack_pointer
  let ccr := ccrByte m.flags
  let mem1 := mstore16 m.mem (sub16 sp 1) (mask16 m.regs.program_counter)
  let mem2 := mstore16 mem1 (sub16 sp 3) (mask16 m.regs.index)
  let mem3 := mstore8 mem2 (sub16 sp 4) m.regs.acc_a
  let mem4 := mstore8 mem3 (sub16 sp 5) m.regs.acc_b
  let mem5 := mstore8 mem4 (sub16 sp 6) ccr
  { m with mem := mem5, regs := { m.regs with stack_pointer := sub16 sp 7 } }

/-- MB8861._pop_all_registers: inverse stack walk restoring CCR, B, A, X, PC
and raising SP by 7. -/
def pop_all_registers (m : Machine) : Machine :=
  let sp := (m.regs.stack_pointer + 7) % 65536
  let ccr := mload8 m.mem (sub16 sp 6)
  let flags : CPUFlags :=
    { carry_h := ccr &&& 32 != 0
      carry_i := ccr &&& 16 != 0
      carry_n := ccr &&& 8 != 0
      carry_z := ccr &&& 4 != 0
      carry_v := ccr &&& 2 != 0
      carry_c := ccr &&& 1 != 0 }
  let acc_b := mload8 m.mem (sub16 sp 5)
  let acc_a := mload8 m.mem (sub16 sp 4)
  let index := mload16 m.mem (sub16 sp 3)
  let pc := mload16 m.mem (sub16 sp 1)
  { m with
    flags := flags
    regs := { acc_a := acc_a, acc_b := acc_b, index := index,
              stack_pointer := sp, program_counter := pc } }

/-- MB8861 NMI branch of _service_pending_interrupts: clear the request and
WAI, push the full register context, load PC from 0xFFFC, add 12 cycles. -/
def serviceNMI (m : Machine) : Machine :=
  let m1 := push_all_registers
    { m with status := { m.status with nmi_requested := false, fetch_wai := false } }
  { m1 with
    regs := { m1.regs with program_counter := mload16 m1.mem 0xFFFC }
    clock := m1.clock + 12 }

/-- MB8861 IRQ branch of _service_pending_interrupts (taken when
irq_requested and I clear): clear the request, push, vector 0xFFF8, 12 cycles.
The fetch_wai clear of the in_wai case is applied by the caller. -/
def serviceIRQ (m : Machine) : Machine :=
  let m1 := push_all_registers
    { m with status := { m.status with irq_requested := false } }
  { m1 with
    regs := { m1.regs with program_counter := mload16 m1.mem 0xFFF8 }
    clock := m1.clock + 12 }

/-- MB8861._swi: advance PC past the opcode slot, push all registers, set I,
load PC from the SWI vector 0xFFFA. -/
def swi (m : Machine) : Machine :=
  let m0 := { m with regs :=
    { m.regs with program_counter := mask16 (m.regs.program_counter + 1) } }
  let m1 := push_all_registers m0
  { m1 with
    flags := { m1.flags with carry_i := true }
    regs := { m1.regs with program_counter := mload16 m1.mem 0xFFFA } }

/-- MB8861._rti is exactly _pop_all_registers. -/
def rti (m : Machine) : Machine := pop_all_registers m

/-- MB8861._fetch_operand8: read the byte at PC and advance PC. -/
def fetch_operand8 (m : Machine) : Nat × Machine :=
  let value := mload8 m.mem m.regs.program_counter
  (value, { m with regs :=
    { m.regs with program_counter := mask16 (m.regs.program_counter + 1) } })

/-- MB8861._fetch_operand16: two operand-byte fetches, high byte first. -/
def fetch_operand16 (m : Machine) : Nat × Machine :=
  let (high, m1) := fetch_operand8 m
  let (low, m2) := fetch_operand8 m1
  (((high <<< 8) ||| low) &&& 65535, m2)

/-- MB8861._opcode_orab_ext_buggy, the handler installed for opcode 0xFA
(ORAB ext): it fetches an extended address and runs _add8 on accumulator B. -/
def opcode_orab_ext_buggy (m : Machine) : Machine :=
  let (address, m1) := fetch_operand16 m
  let value := mload8 m1.mem address
  let (b, f) := add8 m1.flags m1.regs.acc_b value
  { m1 with regs := { m1.regs with acc_b := b }, flags := f }

/-- MB8861._opcode_addb_ext, the handler installed for opcode 0xFB
(ADDB ext). -/
def opcode_addb_ext (m : Machine) : Machine :=
  let (address, m1) := fetch_operand16 m
  let value := mload8 m1.mem address
  let (b, f) := add8 m1.flags m1.regs.acc_b value
  { m1 with regs := { m1.regs with acc_b := b }, flags := f }

/-- Cycle count registered for opcode 0xFA in _init_opcode_table. -/
def cyclesORABExt : Nat := 4

/-- Cycle count registered for opcode 0xFB in _init_opcode_table. -/
def cyclesADDBExt : Nat := 4

/-- MB8861._handle_reset: clear the reset and WAI flags, reload PC from the
restart vector 0xFFFE and zero the scheduler clock. -/
def handle_reset (m : Machine) : Machine :=
  { m with
    status := { m.status with reset_requested := false, fetch_wai := false }
    regs := { m.regs with program_counter := mload16 m.mem 0xFFFE }
    clock := 0 }

/-- MB8861._service_pending_interrupts: some new-machine when an interrupt was
serviced, none otherwise.  NMI has priority; IRQ fires only with I clear, and
in the WAI case additionally clears fetch_wai. -/
def service_pending_interrupts (in_wai : Bool) (m : Machine) : Option Machine :=
  if m.status.nmi_requested then some (serviceNMI m)
  else if m.status.irq_requested && !m.flags.carry_i then
    some (serviceIRQ
      (if in_wai then { m with status := { m.status with fetch_wai := false } } else m))
  else none

/-- Outcome of MB8861.execute: either a normal return carrying the final
machine and the overshoot value clock - target, or an early return 0 taken by
the reset branch. -/
inductive ExecOutcome where
  | ret (m : Machine) (value : Int)

/-- One-loop-at-a-time embedding of the while loop of MB8861.execute.  The
fetch-and-dispatch tail of the loop body (opcode fetch, the RTI/RTS/SWI/WAI
special cases, the opcode-table dispatch and its cycle accounting) is the
parameter instr; the loop head (reset, halt, WAI and interrupt-service
branches) is translated literally, and the claims proved below do not depend
on instr.  Fuel counts loop iterations; none means the loop was still running
after fuel iterations. -/
def executeLoop (instr : Machine → Machine) (target : Nat) :
    Nat → Machine → Option ExecOutcome
  | 0, _ => none
  | fuel + 1, m =>
    if m.clock < target then
      if m.status.reset_requested then some (.ret (handle_reset m) 0)
      else if m.status.halt_requested then
        executeLoop instr target fuel
          { m with status := { m.status with halt_processed := true } }
      else
        let m1 := if m.status.halt_processed then
            { m with status := { m.status with halt_processed := false } } else m
        if m1.status.fetch_wai then
          match service_pending_interrupts true m1 with
          | some m2 => executeLoop instr target fuel m2
          | none => executeLoop instr target fuel { m1 with clock := m1.clock + 1 }
        else
          match service_pending_interrupts false m1 with
          | some m2 => executeLoop instr target fuel m2
          | none => executeLoop instr target fuel (instr m1)
    else some (.ret m ((m.clock : Int) - target))

/-- MB8861.execute(clocks): run the loop against target = clock_count + clocks. -/
def mb8861_execute (instr : Machine → Machine) (m : Machine) (clocks fuel : Nat) :
    Option ExecOutcome :=
  executeLoop instr (m.clock + clocks) fuel m

/-- The concrete machine used as the failing input of claim C1: a CPU on
which halt() was called (halt_requested set) with all-zero registers, a
zeroed flat memory and clock_count 0. -/
def haltedMachine : Machine :=
  { regs := {}
    flags := {}
    status := { halt_requested := true }
    mem := fun _ => 0
    clock := 0 }

/-- State after the first halt iteration: halt_processed acknowledged. -/
def haltedMachine1 : Machine :=
  { haltedMachine with status := { haltedMachine.status with halt_processed := true } }

/-!
R6522 VIA, from src/jr100emu/via/r6522.py.  The base class is modeled: all
store_*_option, timer1_timeout_*_option, handler_* hooks are no-ops there.
The start_address/end_address fields are dropped; register accesses are keyed
by the offset (address - start_address) & 0xFFFF, which the memory map keeps
in 0..15.  Fields that Python decrements below zero (the timers and CA2_timer)
are Int; all the rest are Nat.
-/

/-- VIA register and line state, mirroring dataclass VIAState of r6522.py. -/
structure VIAState where
  IFR : Nat := 0
  IER : Nat := 0
  PCR : Nat := 0
  ACR : Nat := 0
  IRA : Nat := 0
  ORA : Nat := 0
  DDRA : Nat := 0
  IRB : Nat := 0
  ORB : Nat := 0
  DDRB : Nat := 0
  SR : Nat := 0
  port_a : Nat := 0
  port_b : Nat := 0
  CA1_in : Nat := 0
  CA2_in : Nat := 0
  CA2_out : Nat := 0
  CA2_timer : Int := -1
  CB1_in : Nat := 0
  CB1_out : Nat := 0
  CB2_in : Nat := 0
  CB2_out : Nat := 0
  previous_pb6 : Nat := 0
  latch1 : Nat := 0
  latch2 : Nat := 0
  timer1 : Int := 0
  timer2 : Int := 0
  shift_tick : Bool := false
  shift_counter : Nat := 0
  shift_started : Bool := false
  timer1_initialized : Bool := false
  timer1_enable : Bool := false
  timer2_initialized : Bool := false
  timer2_enable : Bool := false
  timer2_low_byte_timeout : Bool := false
  current_clock : Nat := 0
  deriving DecidableEq, Repr

/-- R6522.reset: zero all mutable state, CA2_timer back to -1. -/
def via_reset (_s : VIAState) : VIAState := {}

/-- The composite-IRQ invariant of claim C3: IFR bit 7 is set exactly when
some enabled interrupt flag in bits 0..6 is set (source order of the mask:
IER & IFR & 0x7F as written in process_irq). -/
def viaIrqInv (s : VIAState) : Prop :=
  (s.IFR &&& 128 ≠ 0) ↔ (s.IER &&& s.IFR &&& 127 ≠ 0)

instance (s : VIAState) : Decidable (viaIrqInv s) := by
  unfold viaIrqInv
  infer_instance

/-- R6522.process_irq: recompute the composite IRQ bit 7 of IFR from
IER & IFR & 0x7F; handler_irq is a no-op in the base class. -/
def process_irq (s : VIAState) : VIAState :=
  if s.IER &&& s.IFR &&& 127 ≠ 0 then
    if s.IFR &&& 128 = 0 then { s with IFR := s.IFR ||| 128 } else s
  else
    if s.IFR &&& 128 ≠ 0 then { s with IFR := andNot s.IFR 128 } else s

/-- R6522.set_interrupt. -/
def set_interrupt (s : VIAState) (value : Nat) : VIAState :=
  if s.IFR &&& value = 0 then process_irq { s with IFR := s.IFR ||| value } else s

/-- R6522.clear_interrupt. -/
def clear_interrupt (s : VIAState) (value : Nat) : VIAState :=
  if s.IFR &&& value ≠ 0 then process_irq { s with IFR := andNot s.IFR value } else s

/-- R6522.is_set_in_interrupts. -/
def is_set_in_interrupts (s : VIAState) (value : Nat) : Bool :=
  s.IFR &&& value != 0

/-- R6522.input_port_a. -/
def input_port_a (s : VIAState) : Nat :=
  mask8 (andNot s.IRA s.DDRA ||| (s.port_a &&& s.DDRA))

/-- R6522.input_port_b. -/
def input_port_b (s : VIAState) : Nat :=
  mask8 (andNot s.IRB s.DDRB ||| (s.ORB &&& s.DDRB))

/-- R6522.set_port_b. -/
def set_port_b (s : VIAState) (bit state : Nat) : VIAState :=
  let mask := 1 <<< bit
  if s.DDRB &&& mask ≠ 0 then s
  else
    let s1 := { s with port_b := if state ≠ 0 then s.port_b ||| mask
                                 else andNot s.port_b mask }
    if s1.ACR &&& 2 = 0 then { s1 with IRB := mask8 s1.port_b } else s1

/-- R6522.invert_port_b. -/
def invert_port_b (s : VIAState) (bit : Nat) : VIAState :=
  let mask := 1 <<< bit
  if s.DDRB &&& mask ≠ 0 then s
  else
    let s1 := { s with port_b := if s.port_b &&& mask ≠ 0 then andNot s.port_b mask
                                 else s.port_b ||| mask }
    if s1.ACR &&& 2 = 0 then { s1 with IRB := mask8 s1.port_b } else s1

/-- R6522._process_shift_in; handler_cb1 is a base-class no-op. -/
def process_shift_in (s : VIAState) : VIAState :=
  if ¬ s.shift_started then s
  else
    let s1 :=
      if s.shift_tick then
        let a := { s with CB1_out := 1 }
        let b := { a with SR := mask8 ((a.SR <<< 1) ||| (a.CB2_in &&& 1)),
                          shift_counter := (a.shift_counter + 1) % 8 }
        if b.shift_counter = 0 then { set_interrupt b 4 with shift_started := false }
        else b
      else { s with CB1_out := 0 }
    { s1 with shift_tick := !s1.shift_tick }

/-- R6522._process_shift_out; handler_cb1/handler_cb2 are base-class no-ops. -/
def process_shift_out (s : VIAState) : VIAState :=
  if ¬ s.shift_started then s
  else
    let s1 :=
      if s.shift_tick then
        let a := { s with CB1_out := 1 }
        let b := { a with CB2_out := (a.SR >>> 7) &&& 1 }
        let c := { b with SR := mask8 ((b.SR <<< 1) ||| (b.CB2_out &&& 1)) }
        if c.ACR &&& 28 ≠ 16 then
          let d := { c with shift_counter := (c.shift_counter + 1) % 8 }
          if d.shift_counter = 0 then { set_interrupt d 4 with shift_started := false }
          else d
        else c
      else { s with CB1_out := 0 }
    { s1 with shift_tick := !s1.shift_tick }

/-- R6522._initialize_shift_in. -/
def initialize_shift_in (s : VIAState) : VIAState :=
  let s1 := { s with shift_tick := false, shift_counter := 0 }
  let s2 := if is_set_in_interrupts s1 4 then process_shift_in (clear_interrupt s1 4)
            else s1
  { s2 with shift_started := true }

/-- R6522._initialize_shift_out. -/
def initialize_shift_out (s : VIAState) : VIAState :=
  let s1 := { s with shift_tick := false, shift_counter := 0 }
  let s2 := if is_set_in_interrupts s1 4 then process_shift_out (clear_interrupt s1 4)
            else s1
  { s2 with shift_started := true }

/-- R6522.set_ca1; handler_ca2 is a base-class no-op. -/
def set_ca1 (s : VIAState) (state : Nat) : VIAState :=
  if s.CA1_in = state then s
  else
    let s1 := { s with CA1_in := state }
    if (state = 1 ∧ s1.PCR &&& 1 = 1) ∨ (state = 0 ∧ s1.PCR &&& 1 = 0) then
      let s2 := if s1.ACR &&& 1 = 1 then { s1 with IRA := input_port_a s1 } else s1
      let s3 := set_interrupt s2 2
      if s3.CA2_out = 0 ∧ s3.PCR &&& 14 = 8 then { s3 with CA2_out := 1 } else s3
    else s1

/-- R6522.set_ca2. -/
def set_ca2 (s : VIAState) (state : Nat) : VIAState :=
  if s.CA2_in = state then s
  else
    let s1 := { s with CA2_in := state }
    if s1.PCR &&& 8 = 0 then
      if (state = 1 ∧ s1.PCR &&& 12 = 4) ∨ (state = 0 ∧ s1.PCR &&& 12 = 0) then
        set_interrupt s1 1
      else s1
    else s1

/-- R6522.set_cb1; drives the external-clock shift modes. -/
def set_cb1 (s : VIAState) (state : Nat) : VIAState :=
  if s.CB1_in = state then s
  else
    let s1 := { s with CB1_in := state }
    if (state = 1 ∧ s1.PCR &&& 16 = 16) ∨ (state = 0 ∧ s1.PCR &&& 16 = 0) then
      let s2 := if s1.ACR &&& 2 = 2 then { s1 with IRB := input_port_b s1 } else s1
      let s3 := if s2.shift_started ∧ s2.ACR &&& 28 = 12 then process_shift_in s2 else s2
      let s4 := if s3.shift_started ∧ s3.ACR &&& 28 = 28 then process_shift_out s3 else s3
      let s5 := set_interrupt s4 16
      if s5.CB2_out = 0 ∧ s5.PCR &&& 160 = 32 then { s5 with CB2_out := 1 } else s5
    else s1

/-- R6522.set_cb2. -/
def set_cb2 (s : VIAState) (state : Nat) : VIAState :=
  if s.CB2_in = state then s
  else
    let s1 := { s with CB2_in := state }
    if s1.PCR &&& 128 = 0 then
      if (state = 1 ∧ s1.PCR &&& 192 = 64) ∨ (state = 0 ∧ s1.PCR &&& 192 = 0) then
        set_interrupt s1 8
      else s1
    else s1

/-- CA2-timer block of the while-loop body of R6522._execute: decrement the
pulse timer while it is nonnegative and raise CA2 when it crosses below 0. -/
def viaTickCA2 (s : VIAState) : VIAState :=
  if s.CA2_timer ≥ 0 then
    let s1 := { s with CA2_timer := s.CA2_timer - 1 }
    if s1.CA2_timer < 0 then { s1 with CA2_out := 1 } else s1
  else s

/-- Timer-1 block of the loop body: load delay, decrement, or timeout with
the four ACR modes followed by the reload from latch1.  The subclass hooks
invoked on timeout are base-class no-ops. -/
def viaTickTimer1 (s : VIAState) : VIAState :=
  if s.timer1_initialized then { s with timer1_initialized := false }
  else if s.timer1 ≥ 0 then { s with timer1 := s.timer1 - 1 }
  else
    let s1 :=
      if s.timer1_enable then
        let s2 := set_interrupt s 64
        let mode := s2.ACR &&& 192
        if mode = 0 then { s2 with timer1_enable := false }
        else if mode = 64 then invert_port_b s2 7
        else if mode = 128 then set_port_b { s2 with timer1_enable := false } 7 1
        else invert_port_b s2 7
      else s
    { s1 with timer1 := (s1.latch1 : Int) }

/-- Timer-2 block of the loop body, including the PB6 falling-edge detection
that precedes it in the source. -/
def viaTickTimer2 (s : VIAState) : VIAState :=
  let current_pb6 := input_port_b s &&& 64
  let pb6_negative := s.previous_pb6 ≠ 0 ∧ current_pb6 = 0
  let sC : VIAState := { s with previous_pb6 := current_pb6 }
  if sC.timer2 ≥ 0 then
    if sC.ACR &&& 32 = 0 then
      if sC.timer2_initialized then { sC with timer2_initialized := false }
      else { sC with timer2 := sC.timer2 - 1 }
    else
      if sC.timer2_initialized then { sC with timer2_initialized := false }
      else if pb6_negative then { sC with timer2 := sC.timer2 - 1 }
      else sC
  else
    let s1 := if sC.timer2_enable then { set_interrupt sC 32 with timer2_enable := false }
              else sC
    let s2 :=
      if s1.shift_started ∧ s1.timer2 % 256 = 255 then
        let mode := s1.ACR &&& 28
        if mode = 4 then process_shift_in s1
        else if mode = 16 ∨ mode = 20 then process_shift_out s1
        else s1
      else s1
    { s2 with timer2 := (s2.latch2 : Int) }

/-- Shift-register block of the loop body: the two phi2-clocked modes. -/
def viaTickShift (s : VIAState) : VIAState :=
  if s.ACR &&& 28 = 8 then process_shift_in s
  else if s.ACR &&& 28 = 24 then process_shift_out s
  else s

/-- Body of one iteration of the while loop of R6522._execute, everything
except the final current_clock increment: the four blocks in source order. -/
def viaTickBody (s : VIAState) : VIAState :=
  viaTickShift (viaTickTimer2 (viaTickTimer1 (viaTickCA2 s)))

/-- One full iteration of the R6522._execute loop: body, then
current_clock += 1. -/
def viaStep (s : VIAState) : VIAState :=
  let s1 := viaTickBody s
  { s1 with current_clock := s1.current_clock + 1 }

/-- Fuel-indexed unfolding of the while loop of R6522._execute: while
current_clock <= target_clock, run one iteration. -/
def viaRunAux : Nat → VIAState → Int → VIAState
  | 0, s, _ => s
  | fuel + 1, s, target =>
    if (s.current_clock : Int) ≤ target then viaRunAux fuel (viaStep s) target
    else s

/-- Number of iterations the loop of R6522._execute performs. -/
def viaRunFuel (s : VIAState) (target : Int) : Nat :=
  (target + 1 - s.current_clock).toNat

/-- R6522._execute(target_clock).  The fuel is exactly the number of loop
iterations; the loop-equation theorem below shows this definition satisfies
the while-loop unfolding of the source. -/
def via_execute_to (s : VIAState) (target : Int) : VIAState :=
  viaRunAux (viaRunFuel s target) s target

/-- R6522.execute: catch the cursor up to the scheduler clock. -/
def via_execute (s : VIAState) (clock_count : Nat) : VIAState :=
  via_execute_to s (clock_count : Int)

/-- Python floor shift z >> k on a possibly-negative int. -/
def pyShr (z : Int) (k : Nat) : Int := Int.fdiv z (2 ^ k)

/-- R6522.store8, IORB register case. -/
def via_store_iorb (s : VIAState) (v : Nat) : VIAState :=
  let s1 := { s with ORB := v }
  let s2 := clear_interrupt s1 (16 ||| (if s1.PCR &&& 160 = 32 then 0 else 8))
  if s2.CB2_out = 1 ∧ s2.PCR &&& 192 = 128 then { s2 with CB2_out := 0 }
  else s2

/-- R6522.store8, IORA register case. -/
def via_store_iora (s : VIAState) (v : Nat) : VIAState :=
  let s1 := { s with ORA := v }
  let s2 := clear_interrupt s1 (2 ||| (if s1.PCR &&& 10 = 2 then 0 else 1))
  let s3 := if s2.CA2_out = 1 ∧ (s2.PCR &&& 14 = 10 ∨ s2.PCR &&& 12 = 8) then
              { s2 with CA2_out := 0 }
            else s2
  if s3.PCR &&& 14 = 10 then { s3 with CA2_timer := 1 } else s3

/-- R6522.store8, T1CH register case. -/
def via_store_t1ch (s : VIAState) (v : Nat) : VIAState :=
  let s1 := { s with latch1 := mask16 ((s.latch1 &&& 255) ||| (v <<< 8)) }
  let s2 := { s1 with timer1 := (s1.latch1 : Int), timer1_initialized := true,
                      timer1_enable := true }
  set_port_b s2 7 0

/-- R6522.store8, T2CH register case. -/
def via_store_t2ch (s : VIAState) (v : Nat) : VIAState :=
  let s1 := { s with latch2 := mask16 ((s.latch2 &&& 255) ||| (v <<< 8)) }
  let s2 := { s1 with timer2 := (s1.latch2 : Int) }
  let s3 := clear_interrupt s2 32
  { s3 with timer2_initialized := true, timer2_enable := true }

/-- R6522.store8, SR register case: shift initialization per ACR mode, then
the register write. -/
def via_store_sr (s : VIAState) (v : Nat) : VIAState :=
  let mode := s.ACR &&& 28
  let s1 := if mode = 4 ∨ mode = 8 ∨ mode = 12 then initialize_shift_in s
            else if mode = 16 ∨ mode = 20 ∨ mode = 24 ∨ mode = 28 then
              initialize_shift_out s
            else s
  { s1 with SR := v }

/-- R6522.store8, IFR register case: bit 7 set clears all flags. -/
def via_store_ifr (s : VIAState) (v : Nat) : VIAState :=
  clear_interrupt s (if v &&& 128 = 128 then 127 else v)

/-- R6522.store8, IER register case: bit 7 selects set or clear of the mask. -/
def via_store_ier (s : VIAState) (v : Nat) : VIAState :=
  let s1 := if v &&& 128 ≠ 0 then { s with IER := s.IER ||| (v &&& 127) }
            else { s with IER := andNot s.IER (v &&& 127) }
  process_irq s1

/-- R6522.store8 register dispatch (the body between the two _execute
catch-up calls), keyed by the register offset; none models the
AssertionError raised for an offset outside 0..15. -/
def via_store8_reg (s : VIAState) (offset value : Nat) : Option VIAState :=
  let v := mask8 value
  if offset = 0 then some (via_store_iorb s v)
  else if offset = 1 then some (via_store_iora s v)
  else if offset = 2 then some { s with DDRB := v }
  else if offset = 3 then some { s with DDRA := v }
  else if offset = 4 then some { s with latch1 := mask16 ((s.latch1 &&& 65280) ||| v) }
  else if offset = 5 then some (via_store_t1ch s v)
  else if offset = 6 then some { s with latch1 := mask16 ((s.latch1 &&& 65280) ||| v) }
  else if offset = 7 then some { s with latch1 := mask16 ((s.latch1 &&& 255) ||| (v <<< 8)) }
  else if offset = 8 then some { s with latch2 := mask16 ((s.latch2 &&& 65280) ||| v) }
  else if offset = 9 then some (via_store_t2ch s v)
  else if offset = 10 then some (via_store_sr s v)
  else if offset = 11 then some { s with ACR := v }
  else if offset = 12 then some { s with PCR := v }
  else if offset = 13 then some (via_store_ifr s v)
  else if offset = 14 then some (via_store_ier s v)
  else if offset = 15 then some { s with ORA := v }
  else none

/-- R6522.store8: catch up to clock-1, apply the register write, catch up to
clock.  The delay local of the source is 0. -/
def via_store8 (s : VIAState) (clock offset value : Nat) : Option VIAState :=
  let s1 := via_execute_to s ((clock : Int) - 1)
  match via_store8_reg s1 offset value with
  | some s2 => some (via_execute_to s2 (clock : Int))
  | none => none

/-- R6522.load8, IORB register case. -/
def via_load_iorb (s : VIAState) : Nat × VIAState :=
  let result := if s.ACR &&& 2 = 0 then input_port_b s else s.IRB
  (result, clear_interrupt s (16 ||| (if s.PCR &&& 160 = 32 then 0 else 8)))

/-- R6522.load8, IORA register case: interrupt clears and the CA2 pulse
auto-lowering. -/
def via_load_iora (s : VIAState) : Nat × VIAState :=
  let result := if s.ACR &&& 1 = 0 then input_port_a s else s.IRA
  let s1 := clear_interrupt s (2 ||| (if s.PCR &&& 10 = 2 then 0 else 1))
  let s2 :=
    if s1.CA2_out = 1 ∧ (s1.PCR &&& 14 = 10 ∨ s1.PCR &&& 14 = 8) then
      let a := { s1 with CA2_out := 0 }
      if a.PCR &&& 14 = 8 then { a with CA2_timer := 1 } else a
    else s1
  (result, s2)

/-- R6522.load8, SR register case: shift initialization per ACR mode (mode 0
passive), then read. -/
def via_load_sr (s : VIAState) : Nat × VIAState :=
  let mode := s.ACR &&& 28
  let s1 := if mode = 0 then s
            else if mode = 4 ∨ mode = 8 ∨ mode = 12 then initialize_shift_in s
            else initialize_shift_out s
  (s1.SR, s1)

/-- R6522.load8 register dispatch between the two catch-up calls; returns the
result byte (before the final & 0xFF) and the updated state. -/
def via_load8_reg (s : VIAState) (offset : Nat) : Option (Nat × VIAState) :=
  if offset = 0 then some (via_load_iorb s)
  else if offset = 1 then some (via_load_iora s)
  else if offset = 2 then some (s.DDRB, s)
  else if offset = 3 then some (s.DDRA, s)
  else if offset = 4 then
    some (((clear_interrupt s 64).timer1 % 256).toNat, clear_interrupt s 64)
  else if offset = 5 then some (((pyShr s.timer1 8) % 256).toNat, s)
  else if offset = 6 then some (s.latch1 &&& 255, s)
  else if offset = 7 then some ((s.latch1 >>> 8) &&& 255, s)
  else if offset = 8 then
    some (((clear_interrupt s 32).timer2 % 256).toNat, clear_interrupt s 32)
  else if offset = 9 then some (((pyShr s.timer2 8) % 256).toNat, s)
  else if offset = 10 then some (via_load_sr s)
  else if offset = 11 then some (s.ACR, s)
  else if offset = 12 then some (s.PCR, s)
  else if offset = 13 then some (s.IFR, s)
  else if offset = 14 then some (s.IER ||| 128, s)
  else if offset = 15 then
    some (if s.ACR &&& 1 = 0 then input_port_a s else s.IRA, s)
  else none

/-- R6522.load8: catch up, read the register, catch up again, mask to 8 bits. -/
def via_load8 (s : VIAState) (clock offset : Nat) : Option (Nat × VIAState) :=
  let s1 := via_execute_to s ((clock : Int) - 1)
  match via_load8_reg s1 offset with
  | some (result, s2) => some (mask8 result, via_execute_to s2 (clock : Int))
  | none => none

/-- Computer built around a VIA device only (no CPU attached, empty event
queue, running status RUNNING), the configuration exercised by
Computer.tick lines 108-119 of system/computer.py through its
no-CPU branch. -/
structure ViaComputer where
  clock_count : Nat
  via : VIAState

/-- Computer.tick for the ViaComputer configuration: cycles <= 0 returns
immediately; otherwise (no events pending, status RUNNING, no CPU) the clock
advances by cycles and each device's execute() runs, here the VIA catch-up. -/
def computer_tick_via_only (c : ViaComputer) (cycles : Nat) : ViaComputer :=
  if cycles = 0 then c
  else
    let c1 : ViaComputer := { c with clock_count := c.clock_count + cycles }
    { c1 with via := via_execute c1.via c1.clock_count }

/-!
JR-100 memory system: the MemorySystem of memory/__init__.py populated as
JR100Computer.__init__ of jr100/computer.py populates it with standard RAM
(extended_ram = False): MainRam 0x0000-0x3FFF, UserDefinedCharacterRam
0xC000-0xC0FF, VideoRam 0xC100-0xC3FF, ExtendedIOPort 0xCC00-0xCFFF,
BasicRom 0xE000-0xFFFF, the VIA at 0xC800-0xC80F and the UnmappedMemory
filler everywhere else.  The display's pre-rendered font planes are derived
caches rebuilt from the written bytes and are not part of this model; the
display buffers written by write_video_ram and update_font are.
-/

/-- Device owning one address in the per-address dispatch table _space. -/
inductive Owner where
  | mainRam
  | udcRam
  | videoRam
  | viaDev
  | extPort
  | basicRom
  | unmapped
  deriving DecidableEq, Repr

/-- The dispatch table built by allocate_space and the register_memory calls
of JR100Computer._install_memory_map plus the VIA registration. -/
def owner (addr : Nat) : Owner :=
  if addr < 0x4000 then .mainRam
  else if 0xC000 ≤ addr ∧ addr < 0xC100 then .udcRam
  else if 0xC100 ≤ addr ∧ addr < 0xC400 then .videoRam
  else if 0xC800 ≤ addr ∧ addr ≤ 0xC80F then .viaDev
  else if 0xCC00 ≤ addr ∧ addr < 0xD000 then .extPort
  else if 0xE000 ≤ addr ∧ addr < 0x10000 then .basicRom
  else .unmapped

/-- Pointwise update of a byte array modeled as a function. -/
def upd (f : Nat → Nat) (i v : Nat) : Nat → Nat :=
  fun j => if j = i then v else f j

/-- Full state of the JR-100 memory system and its attached devices. -/
structure JRMem where
  clock_count : Nat
  mainRam : Nat → Nat
  udcRam : Nat → Nat
  videoRam : Nat → Nat
  dispUdc : Nat → Nat
  dispVideo : Nat → Nat
  gamepad : Nat
  rom : Nat → Nat
  via : VIAState

/-- MemorySystem.load8: mask the address, dispatch to the owning device.
Returns the byte and the (possibly VIA-advanced) system state. -/
def sys_load8 (m : JRMem) (address : Nat) : Nat × JRMem :=
  let addr := mask16 address
  match owner addr with
  | .mainRam => (mask8 (m.mainRam ((addr - 0) % 0x4000)), m)
  | .udcRam => (mask8 (m.udcRam ((addr - 0xC000) % 0x100)), m)
  | .videoRam => (mask8 (m.videoRam ((addr - 0xC100) % 0x300)), m)
  | .viaDev =>
    match via_load8 m.via m.clock_count (mask16 (addr - 0xC800)) with
    | some (v, s) => (v, { m with via := s })
    | none => (0, m)
  | .extPort => (if addr = 0xCC02 then mask8 m.gamepad else 0, m)
  | .basicRom => (mask8 (m.rom ((addr - 0xE000) % 0x2000)), m)
  | .unmapped => (if addr = 0xD000 then 0xAA else 0, m)

/-- MemorySystem.store8: mask address and value, dispatch to the owning
device.  UserDefinedCharacterRam.store8 also calls display.update_font
(writing user_defined_ram[code*8+line]); VideoRam.store8 also calls
display.write_video_ram; ROM.store8 and UnmappedMemory.store8 drop the
write.  The none branch of the VIA register dispatch is unreachable because
the mapped offsets are 0..15. -/
def sys_store8 (m : JRMem) (address value : Nat) : JRMem :=
  let addr := mask16 address
  let v := mask8 value
  match owner addr with
  | .mainRam => { m with mainRam := upd m.mainRam ((addr - 0) % 0x4000) v }
  | .udcRam =>
    let index := (addr - 0xC000) % 0x100
    { m with udcRam := upd m.udcRam index v,
             dispUdc := upd m.dispUdc ((index / 8) * 8 + index % 8) v }
  | .videoRam =>
    let index := (addr - 0xC100) % 0x300
    { m with videoRam := upd m.videoRam index v,
             dispVideo := upd m.dispVideo index v }
  | .viaDev =>
    { m with via := (via_store8 m.via m.clock_count (mask16 (addr - 0xC800)) v).getD m.via }
  | .extPort => if addr = 0xCC02 then { m with gamepad := v } else m
  | .basicRom => m
  | .unmapped => m

/-- MemorySystem.load16: two independent dispatched byte loads, high byte at
the lower address, combined with (hi << 8) | lo, masked to 16 bits. -/
def sys_load16 (m : JRMem) (address : Nat) : Nat × JRMem :=
  let addr := mask16 address
  let (hi, m1) := sys_load8 m addr
  let (lo, m2) := sys_load8 m1 (mask16 (addr + 1))
  (((hi <<< 8) ||| lo) &&& 65535, m2)

/-- MemorySystem.store16: two independent dispatched byte stores, high byte
first. -/
def sys_store16 (m : JRMem) (address value : Nat) : JRMem :=
  let addr := mask16 address
  let m1 := sys_store8 m addr ((value >>> 8) &&& 255)
  sys_store8 m1 (mask16 (addr + 1)) (value &&& 255)

/-- Address is owned by an instance of class RAM of memory/__init__.py
(MainRam, UserDefinedCharacterRam and VideoRam are its subclasses). -/
def ownedByRam (addr : Nat) : Prop :=
  owner addr = .mainRam ∨ owner addr = .udcRam ∨ owner addr = .videoRam

instance (addr : Nat) : Decidable (ownedByRam addr) := by
  unfold ownedByRam; infer_instance

/-- A fresh JR-100 memory image: all RAM zeroed, gamepad 0, VIA reset. -/
def freshJRMem : JRMem :=
  { clock_count := 0
    mainRam := fun _ => 0
    udcRam := fun _ => 0
    videoRam := fun _ => 0
    dispUdc := fun _ => 0
    dispVideo := fun _ => 0
    gamepad := 0
    rom := fun _ => 0
    via := {} }

/-!
BASIC text loader, from src/jr100emu/emulator/file/program.py.  File IO and
encoding are outside the model: the input is the list of the file's lines,
each already stripped of its line terminator (the raw_line.rstrip of the
source).  A none result models a raised ProgramLoadError.
-/

/-- Python str.strip(): drop leading and trailing whitespace. -/
def stripChars (l : List Char) : List Char :=
  ((l.dropWhile Char.isWhitespace).reverse.dropWhile Char.isWhitespace).reverse

/-- program._canonicalize_basic_line: strip then uppercase. -/
def canonicalizeBasicLine (line : List Char) : List Char :=
  (stripChars line).map Char.toUpper

/-- Decimal value of a digit run, as Python int() of the digit substring. -/
def digitsVal (l : List Char) : Nat :=
  l.foldl (fun acc c => acc * 10 + (c.toNat - 48)) 0

/-- program._extract_basic_line_number: take the maximal leading digit run;
raise if it is empty or its value lies outside 1..32767; otherwise return the
number and the rest of the line with leading whitespace removed. -/
def extractBasicLineNumber (line : List Char) : Option (Nat × List Char) :=
  let digits := line.takeWhile Char.isDigit
  if digits.isEmpty then none
  else
    let number := digitsVal digits
    if number < 1 ∨ number > 32767 then none
    else some (number, (line.drop digits.length).dropWhile Char.isWhitespace)

/-- Hexadecimal digit test for the two characters of a \HH escape (Python
int(hex_digits, 16) accepts exactly these for two-character all-digit
input). -/
def isHexDigitChar (c : Char) : Bool :=
  c.isDigit || (65 ≤ c.toNat && c.toNat ≤ 70) || (97 ≤ c.toNat && c.toNat ≤ 102)

/-- Value of one hexadecimal digit character. -/
def hexDigitVal (c : Char) : Nat :=
  if c.isDigit then c.toNat - 48
  else if c.toNat ≤ 70 then c.toNat - 55
  else c.toNat - 87

/-- program._encode_basic_content: bytes of the line body; a backslash starts
a two-hex-digit escape, needing two further characters; every other character
contributes ord(ch) & 0xFF. -/
def encodeBasicContent : List Char → Option (List Nat)
  | [] => some []
  | c :: rest =>
    if c = '\\' then
      match rest with
      | c1 :: c2 :: rest2 =>
        if isHexDigitChar c1 && isHexDigitChar c2 then
          (encodeBasicContent rest2).map
            (fun tl => mask8 (hexDigitVal c1 * 16 + hexDigitVal c2) :: tl)
        else none
      | _ => none
    else (encodeBasicContent rest).map (fun tl => mask8 c.toNat :: tl)
  termination_by l => l.length
  decreasing_by all_goals simp [List.length] <;> omega

/-- The per-byte store loop of load_basic_text: bounds check against 0x7FFF
before each store. -/
def storeContentBytes : JRMem → Nat → List Nat → Option (JRMem × Nat)
  | m, addr, [] => some (m, addr)
  | m, addr, b :: rest =>
    if addr > 0x7FFF then none
    else storeContentBytes (sys_store8 m addr b) (addr + 1) rest

/-- The line loop of load_basic_text: canonicalize, skip empty lines, parse
the line number, write the number word and the encoded body, check the
72-byte line limit and write the 0x00 terminator. -/
def loadBasicLines : JRMem → Nat → List (List Char) → Option (JRMem × Nat)
  | m, addr, [] => some (m, addr)
  | m, addr, raw :: rest =>
    let canonical := canonicalizeBasicLine raw
    if canonical.isEmpty then loadBasicLines m addr rest
    else
      match extractBasicLineNumber canonical with
      | none => none
      | some (number, content) =>
        if addr + 2 > 0x7FFF then none
        else
          let m1 := sys_store16 m addr number
          match encodeBasicContent content with
          | none => none
          | some bytes =>
            match storeContentBytes m1 (addr + 2) bytes with
            | none => none
            | some (m2, addr2) =>
              if 2 + bytes.length > 72 then none
              else if addr2 > 0x7FFF then none
              else loadBasicLines (sys_store8 m2 addr2 0) (addr2 + 1) rest

/-- program._finalize_basic: three 0xDF terminator bytes after the last data
address and the four BASIC pointers at 0x0006..0x000D, big-endian, at
successive addresses starting from the last data address. -/
def finalizeBasic (m : JRMem) (final_data_address : Nat) : JRMem :=
  let fda := if final_data_address < 0x0245 then 0x0245 else final_data_address
  let m1 := sys_store8 m (fda + 1) 0xDF
  let m2 := sys_store8 m1 (fda + 2) 0xDF
  let m3 := sys_store8 m2 (fda + 3) 0xDF
  let m4 := sys_store8 m3 6 ((fda >>> 8) &&& 255)
  let m5 := sys_store8 m4 7 (fda &&& 255)
  let m6 := sys_store8 m5 8 (((fda + 1) >>> 8) &&& 255)
  let m7 := sys_store8 m6 9 ((fda + 1) &&& 255)
  let m8 := sys_store8 m7 10 (((fda + 2) >>> 8) &&& 255)
  let m9 := sys_store8 m8 11 ((fda + 2) &&& 255)
  let m10 := sys_store8 m9 12 (((fda + 3) >>> 8) &&& 255)
  sys_store8 m10 13 ((fda + 3) &&& 255)

/-- program.load_basic_text on an already-read list of lines: run the line
loop from the BASIC start address 0x0246, then finalize at the last written
address. -/
def load_basic_text (m : JRMem) (lines : List (List Char)) : Option JRMem :=
  match loadBasicLines m 0x0246 lines with
  | none => none
  | some (m1, addr) => some (finalizeBasic m1 (addr - 1))

/-- A non-empty canonical line whose leading decimal number is missing or out
of the range 1..32767: the condition of claim C9. -/
def badBasicLine (raw : List Char) : Prop :=
  ¬ (canonicalizeBasicLine raw).isEmpty = true ∧
    (((canonicalizeBasicLine raw).takeWhile Char.isDigit).isEmpty = true ∨
      digitsVal ((canonicalizeBasicLine raw).takeWhile Char.isDigit) < 1 ∨
      digitsVal ((canonicalizeBasicLine raw).takeWhile Char.isDigit) > 32767)

/-!
JR-100 keyboard matrix, from src/jr100emu/jr100/keyboard.py.  The matrix is
the list _matrix of 9 row values; press/release take Python ints, modeled as
Int so that negative arguments are representable; a none result models a
raised ValueError (the matrix object is untouched in that case, since the
source raises before mutating).
-/

/-- Idle matrix: all 9 rows at ROW_MASK = 0x1F (all keys released). -/
def kbDefaultMatrix : List Nat := List.replicate 9 31

/-- JR100Keyboard.press: bounds-check row and bit, then clear the key bit
through matrix[row] &= ~mask & ROW_MASK. -/
def kb_press (matrix : List Nat) (row bit : Int) : Option (List Nat) :=
  if 0 ≤ row ∧ row < 9 ∧ 0 ≤ bit ∧ bit < 5 then
    let mask := 1 <<< bit.toNat
    some (matrix.set row.toNat ((matrix.getD row.toNat 0) &&& andNot 31 mask))
  else none

/-- JR100Keyboard.release: bounds-check, then matrix[row] |= mask followed by
matrix[row] &= ROW_MASK. -/
def kb_release (matrix : List Nat) (row bit : Int) : Option (List Nat) :=
  if 0 ≤ row ∧ row < 9 ∧ 0 ≤ bit ∧ bit < 5 then
    let mask := 1 <<< bit.toNat
    some (matrix.set row.toNat (((matrix.getD row.toNat 0) ||| mask) &&& 31))
  else none

/-- JR100Keyboard.set_key_matrix: mask every supplied row to ROW_MASK, demand
at least 9 rows, keep the first 9. -/
def kb_set_key_matrix (values : List Nat) : Option (List Nat) :=
  let vs := values.map (fun v => v &&& 31)
  if vs.length < 9 then none else some (vs.take 9)

/-- JR100Keyboard.clear: back to the idle matrix. -/
def kb_clear (_matrix : List Nat) : List Nat := kbDefaultMatrix

instance (raw : List Char) : Decidable (badBasicLine raw) := by
  unfold badBasicLine
  infer_instance

/-- Concrete machine used to witness the interrupt stack-frame claim: the
register values of spec scenario 3 ahead of a push. -/
def frameWitnessMachine : Machine :=
  { regs := { acc_a := 0xEF, acc_b := 0xAD, index := 0xBEEF,
              stack_pointer := 0x01F0, program_counter := 0xDEAD }
    flags := { carry_c := true }
    status := {}
    mem := fun _ => 0
    clock := 0 }

/-- Machine state for the concrete ORAB-ext scenario of the spec (bytes
FA 12 34 at address 0, opcode byte already fetched so PC = 1, B = 0x10,
memory cell 0x1234 holding 0x20). -/
def orabScenarioMachine : Machine :=
  { regs := { acc_b := 0x10, program_counter := 1 }
    flags := {}
    status := {}
    mem := fun a => if a = 0 then 0xFA else if a = 1 then 0x12 else if a = 2 then 0x34
                    else if a = 0x1234 then 0x20 else 0
    clock := 0 }



theorem and255_eq_mod (v : Nat) : v &&& 255 = v % 256 := by
  have h := Nat.and_pow_two_sub_one_eq_mod v 8
  norm_num at h
  exact h

theorem and65535_eq_mod (v : Nat) : v &&& 65535 = v % 65536 := by
  have h := Nat.and_pow_two_sub_one_eq_mod v 16
  norm_num at h
  exact h

theorem shiftRight8_eq_div (v : Nat) : v >>> 8 = v / 256 := by
  have h := Nat.shiftRight_eq_div_pow v 8
  norm_num at h
  exact h

theorem shiftLeft8_or_eq (hi lo : Nat) (h : lo < 256) : hi <<< 8 ||| lo = hi * 256 + lo := by
  have h256 : lo < 2 ^ 8 := h
  apply Nat.eq_of_testBit_eq
  intro i
  rw [Nat.testBit_lor, Nat.testBit_shiftLeft]
  have h1 : hi * 256 + lo = 2 ^ 8 * hi + lo := by ring
  rw [h1, Nat.testBit_mul_pow_two_add hi h256]
  by_cases hc : 8 ≤ i
  · have hlo : lo.testBit i = false := Nat.testBit_lt_two_pow (by
      calc lo < 2 ^ 8 := h256
        _ ≤ 2 ^ i := Nat.pow_le_pow_right (by norm_num) hc)
    simp [hc, hlo]
  · simp [hc, Nat.lt_of_not_le hc]

theorem and128_div (v : Nat) : v &&& 128 = v / 128 % 2 * 128 := by
  have h : (128 : Nat) = 2 ^ 7 := by norm_num
  rw [h, Nat.and_two_pow, Nat.testBit_to_div_mod]
  norm_num
  rcases Nat.mod_two_eq_zero_or_one (v / 128) with h0 | h0 <;> simp [h0]

theorem byte_roundtrip (v : Nat) (h : v < 65536) :
    ((v >>> 8) &&& 255) <<< 8 ||| (v &&& 255) = v := by
  rw [shiftRight8_eq_div, and255_eq_mod, and255_eq_mod,
    shiftLeft8_or_eq _ _ (Nat.mod_lt _ (by norm_num))]
  omega

theorem land128_ne_iff (v : Nat) (hv : v < 256) : (v &&& 128 ≠ 0) ↔ 128 ≤ v := by
  rw [and128_div]
  omega

/-- Claim C5, counterexample: for the nonzero input 1 the NEG operation of
cpu.py leaves C clear (the source sets carry_c exactly when the result byte
is zero), contradicting the claimed C = (input != 0). -/
theorem neg_carry_claim_false :
    (1 : Nat) ≠ 0 ∧ (neg {} 1).2.carry_c = false ∧ (neg {} 1).1 = 255 := by
  refine ⟨by decide, by decide, by decide⟩

/-- Claim C5, amended: for every 8-bit input x, NEG produces (-x) mod 256,
sets V exactly when x = 0x80, sets C exactly when x = 0 (not x != 0 as the
spec claims), and N and Z follow the result. -/
theorem neg_spec (f : CPUFlags) (x : Nat) (hx : x < 256) :
    (neg f x).1 = (256 - x) % 256
    ∧ ((neg f x).2.carry_v = true ↔ x = 128)
    ∧ ((neg f x).2.carry_c = true ↔ x = 0)
    ∧ ((neg f x).2.carry_n = true ↔ 128 ≤ (neg f x).1)
    ∧ ((neg f x).2.carry_z = true ↔ (neg f x).1 = 0) := by
  have hval : (neg f x).1 = (256 - x) % 256 := by
    simp only [neg, mask8]
    omega
  refine ⟨hval, ?_, ?_, ?_, ?_⟩
  · simp only [neg, mask8, decide_eq_true_eq]
    omega
  · simp only [neg, mask8, decide_eq_true_eq]
    omega
  · have h2 : (neg f x).2.carry_n = ((neg f x).1 &&& 128 != 0) := by
      simp only [neg]
    rw [h2]
    rw [bne_iff_ne]
    rw [land128_ne_iff _ (by rw [hval]; omega)]
  · have h2 : (neg f x).2.carry_z = decide ((neg f x).1 = 0) := by
      simp only [neg]
    rw [h2]
    simp

/-- Witness for the amended claim C5 at the concrete input 3. -/
theorem neg_spec_witness :
    (3 : Nat) < 256 ∧ (neg {} 3).1 = (256 - 3) % 256 := by
  exact ⟨by norm_num, (neg_spec {} 3 (by norm_num)).1⟩

theorem add8_val (f : CPUFlags) (x y : Nat) : (add8 f x y).1 = (x + y) % 256 := by
  simp only [add8, mask8]
  omega

/-- Claim C6: the handler installed for opcode 0xFA (ORAB ext) is the
buggy one that behaves exactly like ADDB ext: same state transformer, B
becomes (B + mem[addr]) mod 256 with the add8 flags, the same 4-cycle cost,
and the spec scenario FA 12 34 with B=0x10, mem[0x1234]=0x20 yields B=0x30
with C clear. -/
theorem orab_ext_theorem (m : Machine) :
    opcode_orab_ext_buggy m = opcode_addb_ext m
    ∧ (opcode_orab_ext_buggy m).regs.acc_b =
        (m.regs.acc_b + mload8 m.mem (fetch_operand16 m).1) % 256
    ∧ (opcode_orab_ext_buggy m).flags =
        (add8 m.flags m.regs.acc_b (mload8 m.mem (fetch_operand16 m).1)).2
    ∧ cyclesORABExt = cyclesADDBExt
    ∧ (opcode_orab_ext_buggy orabScenarioMachine).regs.acc_b = 0x30
    ∧ (opcode_orab_ext_buggy orabScenarioMachine).flags.carry_c = false := by
  refine ⟨rfl, ?_, rfl, rfl, by decide, by decide⟩
  show (add8 m.flags m.regs.acc_b (mload8 m.mem (fetch_operand16 m).1)).1 = _
  rw [add8_val]

/-- Claim C8: a load dispatched to an unmapped hole returns 0x00 except at
address 0xD000 where it returns 0xAA, leaves the state untouched, and a
store dispatched to an unmapped hole leaves all emulator state unchanged. -/
theorem unmapped_theorem (m : JRMem) (a v : Nat) (h : owner (mask16 a) = .unmapped) :
    (sys_load8 m a).1 = (if mask16 a = 0xD000 then 0xAA else 0)
    ∧ (sys_load8 m a).2 = m
    ∧ sys_store8 m a v = m := by
  refine ⟨?_, ?_, ?_⟩ <;> simp only [sys_load8, sys_store8, h]

/-- Witness for claim C8 at the quirk cell 0xD000 and a plain hole 0x5000. -/
theorem unmapped_theorem_witness :
    owner (mask16 0xD000) = Owner.unmapped
    ∧ (sys_load8 freshJRMem 0xD000).1 = 0xAA
    ∧ owner (mask16 0x5000) = Owner.unmapped
    ∧ (sys_load8 freshJRMem 0x5000).1 = 0
    ∧ sys_store8 freshJRMem 0x5000 7 = freshJRMem := by
  have h1 := unmapped_theorem freshJRMem 0xD000 7 (by decide)
  have h2 := unmapped_theorem freshJRMem 0x5000 7 (by decide)
  refine ⟨by decide, ?_, by decide, ?_, h2.2.2⟩
  · rw [h1.1]; decide
  · rw [h2.1]; decide

theorem getD_le_of_all (l : List Nat) (r : Nat) (h : ∀ x ∈ l, x ≤ 31) :
    l.getD r 0 ≤ 31 := by
  by_cases hr : r < l.length
  · rw [List.getD_eq_getElem l 0 hr]
    exact h _ (List.getElem_mem hr)
  · rw [List.getD_eq_default l 0 (Nat.le_of_not_lt hr)]
    omega

theorem mem_set_le (l : List Nat) (r v x : Nat) (hl : ∀ y ∈ l, y ≤ 31) (hv : v ≤ 31)
    (hx : x ∈ l.set r v) : x ≤ 31 := by
  rcases List.mem_or_eq_of_mem_set hx with h | h
  · exact hl _ h
  · omega

/-- Claim C10: press and release raise ValueError (modeled as none) exactly
when row is outside 0..8 or bit is outside 0..4, leaving the matrix
unchanged, and for in-range arguments press, release, set_key_matrix and
clear keep every matrix row value within 0..0x1F. -/
theorem keyboard_theorem (matrix values : List Nat) (row bit : Int) :
    (kb_press matrix row bit = none ↔ (row < 0 ∨ 9 ≤ row ∨ bit < 0 ∨ 5 ≤ bit))
    ∧ (kb_release matrix row bit = none ↔ (row < 0 ∨ 9 ≤ row ∨ bit < 0 ∨ 5 ≤ bit))
    ∧ ((∀ x ∈ matrix, x ≤ 31) →
        ∀ res, kb_press matrix row bit = some res → ∀ x ∈ res, x ≤ 31)
    ∧ ((∀ x ∈ matrix, x ≤ 31) →
        ∀ res, kb_release matrix row bit = some res → ∀ x ∈ res, x ≤ 31)
    ∧ (∀ res, kb_set_key_matrix values = some res → ∀ x ∈ res, x ≤ 31)
    ∧ (∀ x ∈ kb_clear matrix, x ≤ 31) := by
  refine ⟨?_, ?_, ?_, ?_, ?_, ?_⟩
  · unfold kb_press
    split_ifs with h
    · simp only [reduceCtorEq, false_iff]
      omega
    · simp only [true_iff]
      omega
  · unfold kb_release
    split_ifs with h
    · simp only [reduceCtorEq, false_iff]
      omega
    · simp only [true_iff]
      omega
  · intro hm res hres x hx
    unfold kb_press at hres
    split_ifs at hres with h
    · have hres2 : res = matrix.set row.toNat
        ((matrix.getD row.toNat 0) &&& andNot 31 (1 <<< bit.toNat)) := by
        simpa using hres.symm
      subst hres2
      refine mem_set_le _ _ _ _ hm ?_ hx
      calc (matrix.getD row.toNat 0) &&& andNot 31 (1 <<< bit.toNat)
          ≤ matrix.getD row.toNat 0 := Nat.and_le_left
        _ ≤ 31 := getD_le_of_all _ _ hm
  · intro hm res hres x hx
    unfold kb_release at hres
    split_ifs at hres with h
    · have hres2 : res = matrix.set row.toNat
        (((matrix.getD row.toNat 0) ||| (1 <<< bit.toNat)) &&& 31) := by
        simpa using hres.symm
      subst hres2
      exact mem_set_le _ _ _ _ hm Nat.and_le_right hx
  · intro res hres x hx
    simp only [kb_set_key_matrix] at hres
    split_ifs at hres with h
    have hres2 : res = (values.map (fun v => v &&& 31)).take 9 := by
      simpa using hres.symm
    subst hres2
    have hx2 := List.mem_of_mem_take hx
    rcases List.mem_map.mp hx2 with ⟨v, _, hveq⟩
    subst hveq
    exact Nat.and_le_right
  · intro x hx
    have := List.eq_of_mem_replicate hx
    omega

/-- Witness for claim C10: an out-of-range press fails and an in-range
press keeps the rows within 0..0x1F. -/
theorem keyboard_theorem_witness :
    kb_press kbDefaultMatrix 9 0 = none
    ∧ kb_press kbDefaultMatrix 1 0 = some [31, 30, 31, 31, 31, 31, 31, 31, 31]
    ∧ (∀ x ∈ [31, 30, 31, 31, 31, 31, 31, 31, 31], x ≤ 31) := by
  have h := keyboard_theorem kbDefaultMatrix kbDefaultMatrix 9 0
  have h1 := keyboard_theorem kbDefaultMatrix kbDefaultMatrix 1 0
  refine ⟨(h.1).mpr (by norm_num), by decide, ?_⟩
  exact h1.2.2.1 (by decide) _ (by decide)

theorem mask8_small (x : Nat) (h : x < 256) : mask8 x = x := by
  unfold mask8; omega

theorem mask8_and255 (x : Nat) : mask8 (x &&& 255) = x &&& 255 := by
  rw [and255_eq_mod]; unfold mask8; omega

theorem upd_app_same (f : Nat → Nat) (i v : Nat) : upd f i v i = v := by
  simp [upd]

theorem upd_app_ne (f : Nat → Nat) (i v j : Nat) (h : j ≠ i) : upd f i v j = f j := by
  simp [upd, h]

theorem owner_mainRam_of (a : Nat) (h : a < 0x4000) : owner a = .mainRam := by
  unfold owner; rw [if_pos h]

theorem owner_udc_of (a : Nat) (h1 : 0xC000 ≤ a) (h2 : a < 0xC100) : owner a = .udcRam := by
  unfold owner
  rw [if_neg (by omega), if_pos ⟨h1, h2⟩]

theorem owner_video_of (a : Nat) (h1 : 0xC100 ≤ a) (h2 : a < 0xC400) : owner a = .videoRam := by
  unfold owner
  rw [if_neg (by omega), if_neg (by omega), if_pos ⟨h1, h2⟩]

theorem ownedByRam_iff (a : Nat) :
    ownedByRam a ↔ (a < 0x4000 ∨ (0xC000 ≤ a ∧ a < 0xC400)) := by
  unfold ownedByRam owner
  split_ifs <;> simp_all [Owner.mainRam, Owner.udcRam] <;> omega

theorem sys_store8_mainRam (m : JRMem) (a v : Nat) (h : a < 0x4000) :
    sys_store8 m a v = { m with mainRam := upd m.mainRam a (mask8 v) } := by
  have h1 : mask16 a = a := by unfold mask16; omega
  simp only [sys_store8, h1, owner_mainRam_of a h]
  have h2 : (a - 0) % 16384 = a := by omega
  rw [h2]

theorem sys_load8_mainRam (m : JRMem) (a : Nat) (h : a < 0x4000) :
    sys_load8 m a = (mask8 (m.mainRam a), m) := by
  have h1 : mask16 a = a := by unfold mask16; omega
  simp only [sys_load8, h1, owner_mainRam_of a h]
  have h2 : (a - 0) % 16384 = a := by omega
  rw [h2]

theorem sys_store8_udc (m : JRMem) (a v : Nat) (hl : 0xC000 ≤ a) (hh : a < 0xC100) :
    sys_store8 m a v =
      { m with udcRam := upd m.udcRam (a - 0xC000) (mask8 v),
               dispUdc := upd m.dispUdc (((a - 0xC000) / 8) * 8 + (a - 0xC000) % 8) (mask8 v) } := by
  have h1 : mask16 a = a := by unfold mask16; omega
  simp only [sys_store8, h1, owner_udc_of a hl hh]
  have h2 : (a - 0xC000) % 256 = a - 0xC000 := by omega
  rw [h2]

theorem sys_load8_udc (m : JRMem) (a : Nat) (hl : 0xC000 ≤ a) (hh : a < 0xC100) :
    sys_load8 m a = (mask8 (m.udcRam (a - 0xC000)), m) := by
  have h1 : mask16 a = a := by unfold mask16; omega
  simp only [sys_load8, h1, owner_udc_of a hl hh]
  have h2 : (a - 0xC000) % 256 = a - 0xC000 := by omega
  rw [h2]

theorem sys_store8_video (m : JRMem) (a v : Nat) (hl : 0xC100 ≤ a) (hh : a < 0xC400) :
    sys_store8 m a v =
      { m with videoRam := upd m.videoRam (a - 0xC100) (mask8 v),
               dispVideo := upd m.dispVideo (a - 0xC100) (mask8 v) } := by
  have h1 : mask16 a = a := by unfold mask16; omega
  simp only [sys_store8, h1, owner_video_of a hl hh]
  have h2 : (a - 0xC100) % 768 = a - 0xC100 := by omega
  rw [h2]

theorem sys_load8_video (m : JRMem) (a : Nat) (hl : 0xC100 ≤ a) (hh : a < 0xC400) :
    sys_load8 m a = (mask8 (m.videoRam (a - 0xC100)), m) := by
  have h1 : mask16 a = a := by unfold mask16; omega
  simp only [sys_load8, h1, owner_video_of a hl hh]
  have h2 : (a - 0xC100) % 768 = a - 0xC100 := by omega
  rw [h2]

theorem final_combine (v : Nat) (hv : v < 65536) :
    ((((v >>> 8) &&& 255) <<< 8 ||| (v &&& 255)) &&& 65535) = v := by
  rw [byte_roundtrip v hv, and65535_eq_mod]
  omega

/-- Claim C7, amended: the store16/load16 round trip through the memory
system returns the stored word for every address whose two bytes are both
owned by RAM devices; the claim as stated fails at the last RAM byte. -/
theorem ram_store16_load16 (m : JRMem) (a v : Nat) (ha : a < 65536) (hv : v < 65536)
    (h1 : ownedByRam a) (h2 : ownedByRam (mask16 (a + 1))) :
    (sys_load16 (sys_store16 m a v) a).1 = v := by
  have hm1 : mask16 a = a := by unfold mask16; omega
  rw [ownedByRam_iff] at h1
  rcases h1 with hmain | ⟨hc0, hc3⟩
  · -- first byte in MainRam: second byte must be MainRam too
    have hm2 : mask16 (a + 1) = a + 1 := by unfold mask16; omega
    rw [hm2, ownedByRam_iff] at h2
    have ha2 : a + 1 < 0x4000 := by omega
    simp only [sys_store16, sys_load16, hm1, hm2]
    rw [sys_store8_mainRam _ (a + 1) _ (by omega)]
    rw [sys_store8_mainRam m a _ (by omega)]
    rw [sys_load8_mainRam _ a (by omega)]
    simp only
    rw [sys_load8_mainRam _ (a + 1) (by omega)]
    simp only
    rw [upd_app_ne _ _ _ _ (by omega), upd_app_same, upd_app_same,
        mask8_and255, mask8_and255, mask8_and255, mask8_and255]
    exact final_combine v hv
  · -- first byte in UDC or video RAM
    have hm2 : mask16 (a + 1) = a + 1 := by unfold mask16; omega
    rw [hm2, ownedByRam_iff] at h2
    have ha2 : 0xC000 ≤ a + 1 ∧ a + 1 < 0xC400 := by omega
    by_cases hcu : a < 0xC100
    · by_cases hcu2 : a + 1 < 0xC100
      · -- both in UDC RAM
        simp only [sys_store16, sys_load16, hm1, hm2]
        rw [sys_store8_udc _ (a + 1) _ (by omega) (by omega)]
        rw [sys_store8_udc m a _ (by omega) (by omega)]
        rw [sys_load8_udc _ a (by omega) (by omega)]
        simp only
        rw [sys_load8_udc _ (a + 1) (by omega) (by omega)]
        simp only
        rw [upd_app_ne _ _ _ _ (by omega), upd_app_same, upd_app_same,
            mask8_and255, mask8_and255, mask8_and255, mask8_and255]
        exact final_combine v hv
      · -- a = 0xC0FF: high byte UDC RAM, low byte video RAM
        have haeq : a = 0xC0FF := by omega
        subst haeq
        simp only [sys_store16, sys_load16, hm1, hm2]
        rw [sys_store8_video _ (49407 + 1) _ (by norm_num) (by norm_num)]
        rw [sys_store8_udc m 49407 _ (by norm_num) (by norm_num)]
        rw [sys_load8_udc _ 49407 (by norm_num) (by norm_num)]
        simp only
        rw [sys_load8_video _ (49407 + 1) (by norm_num) (by norm_num)]
        simp only
        rw [upd_app_same, upd_app_same,
            mask8_and255, mask8_and255, mask8_and255, mask8_and255]
        exact final_combine v hv
    · -- both in video RAM
      simp only [sys_store16, sys_load16, hm1, hm2]
      rw [sys_store8_video _ (a + 1) _ (by omega) (by omega)]
      rw [sys_store8_video m a _ (by omega) (by omega)]
      rw [sys_load8_video _ a (by omega) (by omega)]
      simp only
      rw [sys_load8_video _ (a + 1) (by omega) (by omega)]
      simp only
      rw [upd_app_ne _ _ _ _ (by omega), upd_app_same, upd_app_same,
          mask8_and255, mask8_and255, mask8_and255, mask8_and255]
      exact final_combine v hv

/-- Witness for the amended claim C7 at address 0x1000. -/
theorem ram_store16_load16_witness :
    ownedByRam 0x1000 ∧ ownedByRam (mask16 (0x1000 + 1))
    ∧ (sys_load16 (sys_store16 freshJRMem 0x1000 0xBEEF) 0x1000).1 = 0xBEEF := by
  refine ⟨by decide, by decide, ?_⟩
  exact ram_store16_load16 freshJRMem 0x1000 0xBEEF (by norm_num) (by norm_num)
    (by decide) (by decide)

/-- Claim C7, counterexample: address 0x3FFF is owned by RAM, yet the
word written there loses its low byte in the unmapped hole at 0x4000, so
load16 returns 0x1200 instead of the stored 0x1234. -/
theorem ram_store16_load16_counterexample :
    ownedByRam 0x3FFF
    ∧ (sys_load16 (sys_store16 freshJRMem 0x3FFF 0x1234) 0x3FFF).1 = 0x1200
    ∧ (0x1200 : Nat) ≠ 0x1234 := by
  refine ⟨by decide, by decide, by norm_num⟩

theorem executeLoop_halted1 (instr : Machine → Machine) (fuel : Nat) :
    executeLoop instr 1 fuel haltedMachine1 = none := by
  induction fuel with
  | zero => rfl
  | succ n ih => exact ih

/-- Claim C1, divergence witness: with halt_requested set, the while loop
of MB8861.execute never terminates, because the halt branch does not advance
clock_count.  The theorem quantifies over every possible fetch-and-dispatch
tail instr and every iteration bound, so mb8861_execute on the halted
machine with a budget of one cycle never returns. -/
theorem execute_halt_diverges (instr : Machine → Machine) (fuel : Nat) :
    mb8861_execute instr haltedMachine 1 fuel = none := by
  cases fuel with
  | zero => rfl
  | succ n => exact executeLoop_halted1 instr n

theorem process_irq_cc (s : VIAState) : (process_irq s).current_clock = s.current_clock := by
  unfold process_irq
  split_ifs <;> rfl

theorem set_interrupt_cc (s : VIAState) (v : Nat) :
    (set_interrupt s v).current_clock = s.current_clock := by
  unfold set_interrupt
  split_ifs <;> simp [process_irq_cc]

theorem clear_interrupt_cc (s : VIAState) (v : Nat) :
    (clear_interrupt s v).current_clock = s.current_clock := by
  unfold clear_interrupt
  split_ifs <;> simp [process_irq_cc]

theorem set_port_b_cc (s : VIAState) (bit state : Nat) :
    (set_port_b s bit state).current_clock = s.current_clock := by
  simp only [set_port_b]
  split_ifs <;> rfl

theorem invert_port_b_cc (s : VIAState) (bit : Nat) :
    (invert_port_b s bit).current_clock = s.current_clock := by
  simp only [invert_port_b]
  split_ifs <;> rfl

theorem process_shift_in_cc (s : VIAState) :
    (process_shift_in s).current_clock = s.current_clock := by
  simp only [process_shift_in]
  split_ifs <;> simp [set_interrupt_cc]

theorem process_shift_out_cc (s : VIAState) :
    (process_shift_out s).current_clock = s.current_clock := by
  simp only [process_shift_out]
  split_ifs <;> simp [set_interrupt_cc]

theorem viaTickCA2_cc (s : VIAState) : (viaTickCA2 s).current_clock = s.current_clock := by
  simp only [viaTickCA2]
  split_ifs <;> rfl

theorem viaTickTimer1_cc (s : VIAState) : (viaTickTimer1 s).current_clock = s.current_clock := by
  simp only [viaTickTimer1]
  split_ifs <;> simp [set_interrupt_cc, set_port_b_cc, invert_port_b_cc]

theorem viaTickTimer2_cc (s : VIAState) : (viaTickTimer2 s).current_clock = s.current_clock := by
  simp only [viaTickTimer2]
  split_ifs <;> simp [set_interrupt_cc, process_shift_in_cc, process_shift_out_cc]

theorem viaTickShift_cc (s : VIAState) : (viaTickShift s).current_clock = s.current_clock := by
  simp only [viaTickShift]
  split_ifs <;> simp [process_shift_in_cc, process_shift_out_cc]

theorem viaTickBody_cc (s : VIAState) : (viaTickBody s).current_clock = s.current_clock := by
  unfold viaTickBody
  rw [viaTickShift_cc, viaTickTimer2_cc, viaTickTimer1_cc, viaTickCA2_cc]

theorem viaStep_cc (s : VIAState) : (viaStep s).current_clock = s.current_clock + 1 := by
  simp only [viaStep]
  rw [viaTickBody_cc]

theorem viaRunAux_cc : ∀ (fuel : Nat) (s : VIAState) (t : Int), fuel = viaRunFuel s t →
    (viaRunAux fuel s t).current_clock =
      if (s.current_clock : Int) ≤ t then (t + 1).toNat else s.current_clock := by
  intro fuel
  induction fuel with
  | zero =>
    intro s t hf
    unfold viaRunFuel at hf
    rw [if_neg (by omega)]
    rfl
  | succ n ih =>
    intro s t hf
    unfold viaRunFuel at hf
    have hle : (s.current_clock : Int) ≤ t := by omega
    rw [if_pos hle]
    show (viaRunAux (n + 1) s t).current_clock = (t + 1).toNat
    unfold viaRunAux
    rw [if_pos hle]
    have hstep := viaStep_cc s
    have hn : n = viaRunFuel (viaStep s) t := by
      unfold viaRunFuel
      rw [hstep]
      omega
    rw [ih (viaStep s) t hn]
    by_cases h2 : ((viaStep s).current_clock : Int) ≤ t
    · rw [if_pos h2]
    · rw [if_neg h2, hstep]
      omega

theorem via_execute_to_cc (s : VIAState) (t : Int) :
    (via_execute_to s t).current_clock =
      if (s.current_clock : Int) ≤ t then (t + 1).toNat else s.current_clock :=
  viaRunAux_cc _ s t rfl

/-- The fuel choice realizes the while loop of R6522._execute: the function
satisfies the loop-unfolding equation of the source. -/
theorem viaRunAux_succ (n : Nat) (s : VIAState) (t : Int) :
    viaRunAux (n + 1) s t =
      if (s.current_clock : Int) ≤ t then viaRunAux n (viaStep s) t else s := rfl

theorem via_execute_to_loop_eq (s : VIAState) (t : Int) :
    via_execute_to s t =
      if (s.current_clock : Int) ≤ t then via_execute_to (viaStep s) t else s := by
  by_cases h : (s.current_clock : Int) ≤ t
  · rw [if_pos h]
    unfold via_execute_to viaRunFuel
    have h1 : (t + 1 - (s.current_clock : Int)).toNat =
        (t + 1 - ((viaStep s).current_clock : Int)).toNat + 1 := by
      rw [viaStep_cc]
      omega
    rw [h1, viaRunAux_succ, if_pos h]
  · rw [if_neg h]
    unfold via_execute_to viaRunFuel
    have h1 : (t + 1 - (s.current_clock : Int)).toNat = 0 := by omega
    rw [h1]
    rfl

/-- Claim C2, counterexample: a single Computer.tick(1) on a fresh
computer leaves via.current_clock = 2 while clock_count = 1, so the cursor
both exceeds the scheduler clock and differs from it after the tick. -/
theorem via_cursor_counterexample :
    (computer_tick_via_only { clock_count := 0, via := {} } 1).clock_count = 1
    ∧ (computer_tick_via_only { clock_count := 0, via := {} } 1).via.current_clock = 2
    ∧ ¬ ((computer_tick_via_only { clock_count := 0, via := {} } 1).via.current_clock ≤
        (computer_tick_via_only { clock_count := 0, via := {} } 1).clock_count) := by
  refine ⟨by decide, by decide, by decide⟩

/-- Claim C2, amended: the loop of R6522._execute runs while
current_clock <= target, so the cursor lands at target + 1: it never
exceeds clock_count + 1, and after every tick that runs the VIA execute it
equals clock_count + 1 exactly. -/
theorem via_cursor_amended :
    (∀ (s : VIAState) (t : Int), (via_execute_to s t).current_clock =
        if (s.current_clock : Int) ≤ t then (t + 1).toNat else s.current_clock)
    ∧ (∀ (s : VIAState) (clock : Nat), s.current_clock ≤ clock + 1 →
        (via_execute s clock).current_clock = clock + 1)
    ∧ (∀ (c : ViaComputer) (cycles : Nat), 0 < cycles →
        c.via.current_clock ≤ c.clock_count + 1 →
        (computer_tick_via_only c cycles).via.current_clock =
          (computer_tick_via_only c cycles).clock_count + 1) := by
  have hexec : ∀ (s : VIAState) (clock : Nat), s.current_clock ≤ clock + 1 →
      (via_execute s clock).current_clock = clock + 1 := by
    intro s clock h
    unfold via_execute
    rw [via_execute_to_cc]
    by_cases h2 : (s.current_clock : Int) ≤ (clock : Int)
    · rw [if_pos h2]
      omega
    · rw [if_neg h2]
      omega
  refine ⟨via_execute_to_cc, hexec, ?_⟩
  intro c cycles hc h
  unfold computer_tick_via_only
  rw [if_neg (by omega)]
  show (via_execute c.via (c.clock_count + cycles)).current_clock = c.clock_count + cycles + 1
  exact hexec _ _ (by omega)

/-- Witness for the amended claim C2 on the fresh VIA at clock 0. -/
theorem via_cursor_amended_witness :
    (({} : VIAState).current_clock ≤ 0 + 1)
    ∧ (via_execute {} 0).current_clock = 0 + 1
    ∧ (0 : Nat) < 1
    ∧ (computer_tick_via_only { clock_count := 0, via := {} } 1).via.current_clock =
        (computer_tick_via_only { clock_count := 0, via := {} } 1).clock_count + 1 := by
  refine ⟨by decide, via_cursor_amended.2.1 {} 0 (by decide), by decide,
    via_cursor_amended.2.2 { clock_count := 0, via := {} } 1 (by decide) (by decide)⟩

theorem testBit_128 (i : Nat) : (128 : Nat).testBit i = decide (7 = i) := by
  have h : (128 : Nat) = 2 ^ 7 := by norm_num
  rw [h, Nat.testBit_two_pow]

theorem testBit_127 (i : Nat) : (127 : Nat).testBit i = decide (i < 7) := by
  have h : (127 : Nat) = 2 ^ 7 - 1 := by norm_num
  rw [h, Nat.testBit_two_pow_sub_one]

theorem lor128_and128 (x : Nat) : (x ||| 128) &&& 128 = 128 := by
  apply Nat.eq_of_testBit_eq
  intro i
  rw [Nat.testBit_land, Nat.testBit_lor, testBit_128]
  by_cases h : 7 = i <;> simp [h]

theorem lor128_low (a x : Nat) : a &&& (x ||| 128) &&& 127 = a &&& x &&& 127 := by
  apply Nat.eq_of_testBit_eq
  intro i
  simp only [Nat.testBit_land, Nat.testBit_lor, testBit_127, testBit_128]
  by_cases h : i < 7
  · have h7 : ¬ (7 = i) := by omega
    simp [h, h7]
  · simp [h]

theorem andNot128_and128 (x : Nat) : andNot x 128 &&& 128 = 0 := by
  apply Nat.eq_of_testBit_eq
  intro i
  simp only [andNot, Nat.testBit_land, Nat.testBit_xor, Nat.zero_testBit, testBit_128]
  by_cases h : 7 = i <;> simp [h]

theorem andNot128_low (a x : Nat) : a &&& andNot x 128 &&& 127 = a &&& x &&& 127 := by
  apply Nat.eq_of_testBit_eq
  intro i
  simp only [andNot, Nat.testBit_land, Nat.testBit_xor, testBit_127, testBit_128]
  by_cases h : i < 7
  · have h7 : ¬ (7 = i) := by omega
    simp [h, h7]
  · simp [h]

theorem inv_process_irq (s : VIAState) : viaIrqInv (process_irq s) := by
  unfold process_irq viaIrqInv
  split_ifs with h1 h2 h3
  · constructor
    · intro _
      show ({ s with IFR := s.IFR ||| 128 }).IER &&& (s.IFR ||| 128) &&& 127 ≠ 0
      show s.IER &&& (s.IFR ||| 128) &&& 127 ≠ 0
      rw [lor128_low]
      exact h1
    · intro _
      show (s.IFR ||| 128) &&& 128 ≠ 0
      rw [lor128_and128]
      norm_num
  · constructor
    · intro _
      exact h1
    · intro _
      exact h2
  · constructor
    · intro hc
      exact absurd (andNot128_and128 s.IFR) hc
    · intro hc
      rw [andNot128_low] at hc
      exact absurd hc h1
  · constructor
    · intro hc
      exact absurd hc h3
    · intro hc
      exact absurd hc h1

theorem inv_set_interrupt (s : VIAState) (v : Nat) (h : viaIrqInv s) :
    viaIrqInv (set_interrupt s v) := by
  unfold set_interrupt
  split_ifs with h1
  · exact inv_process_irq _
  · exact h

theorem inv_clear_interrupt (s : VIAState) (v : Nat) (h : viaIrqInv s) :
    viaIrqInv (clear_interrupt s v) := by
  unfold clear_interrupt
  split_ifs with h1
  · exact inv_process_irq _
  · exact h

theorem inv_set_port_b (s : VIAState) (bit state : Nat) (h : viaIrqInv s) :
    viaIrqInv (set_port_b s bit state) := by
  simp only [set_port_b]
  split_ifs <;> exact h

theorem inv_invert_port_b (s : VIAState) (bit : Nat) (h : viaIrqInv s) :
    viaIrqInv (invert_port_b s bit) := by
  simp only [invert_port_b]
  split_ifs <;> exact h

theorem inv_process_shift_in (s : VIAState) (h : viaIrqInv s) :
    viaIrqInv (process_shift_in s) := by
  simp only [process_shift_in]
  split_ifs <;>
    first
      | exact h
      | exact inv_set_interrupt _ _ h

theorem inv_process_shift_out (s : VIAState) (h : viaIrqInv s) :
    viaIrqInv (process_shift_out s) := by
  simp only [process_shift_out]
  split_ifs <;>
    first
      | exact h
      | exact inv_set_interrupt _ _ h

theorem inv_initialize_shift_in (s : VIAState) (h : viaIrqInv s) :
    viaIrqInv (initialize_shift_in s) := by
  simp only [initialize_shift_in]
  split_ifs <;>
    first
      | exact h
      | exact inv_process_shift_in _ (inv_clear_interrupt _ _ h)

theorem inv_initialize_shift_out (s : VIAState) (h : viaIrqInv s) :
    viaIrqInv (initialize_shift_out s) := by
  simp only [initialize_shift_out]
  split_ifs <;>
    first
      | exact h
      | exact inv_process_shift_out _ (inv_clear_interrupt _ _ h)

theorem inv_set_ca1 (s : VIAState) (state : Nat) (h : viaIrqInv s) :
    viaIrqInv (set_ca1 s state) := by
  simp only [set_ca1]
  split_ifs <;>
    first
      | exact h
      | exact inv_set_interrupt _ _ h

theorem inv_set_ca2 (s : VIAState) (state : Nat) (h : viaIrqInv s) :
    viaIrqInv (set_ca2 s state) := by
  simp only [set_ca2]
  split_ifs <;>
    first
      | exact h
      | exact inv_set_interrupt _ _ h

theorem inv_set_cb1 (s : VIAState) (state : Nat) (h : viaIrqInv s) :
    viaIrqInv (set_cb1 s state) := by
  simp only [set_cb1]
  split_ifs <;>
    first
      | exact h
      | exact inv_set_interrupt _ _ h
      | exact inv_set_interrupt _ _ (inv_process_shift_in _ h)
      | exact inv_set_interrupt _ _ (inv_process_shift_out _ h)
      | exact inv_set_interrupt _ _ (inv_process_shift_out _ (inv_process_shift_in _ h))

theorem inv_set_cb2 (s : VIAState) (state : Nat) (h : viaIrqInv s) :
    viaIrqInv (set_cb2 s state) := by
  simp only [set_cb2]
  split_ifs <;>
    first
      | exact h
      | exact inv_set_interrupt _ _ h

theorem inv_viaTickCA2 (s : VIAState) (h : viaIrqInv s) : viaIrqInv (viaTickCA2 s) := by
  simp only [viaTickCA2]
  split_ifs <;> exact h

theorem inv_viaTickTimer1 (s : VIAState) (h : viaIrqInv s) : viaIrqInv (viaTickTimer1 s) := by
  simp only [viaTickTimer1]
  split_ifs <;>
    first
      | exact h
      | exact inv_set_interrupt _ _ h
      | exact inv_invert_port_b _ _ (inv_set_interrupt _ _ h)
      | exact inv_set_port_b _ _ _ (inv_set_interrupt _ _ h)

theorem inv_viaTickTimer2 (s : VIAState) (h : viaIrqInv s) : viaIrqInv (viaTickTimer2 s) := by
  simp only [viaTickTimer2]
  split_ifs <;>
    first
      | exact h
      | exact inv_set_interrupt _ _ h
      | exact inv_process_shift_in _ h
      | exact inv_process_shift_out _ h
      | exact inv_process_shift_in _ (inv_set_interrupt _ _ h)
      | exact inv_process_shift_out _ (inv_set_interrupt _ _ h)

theorem inv_viaTickShift (s : VIAState) (h : viaIrqInv s) : viaIrqInv (viaTickShift s) := by
  simp only [viaTickShift]
  split_ifs <;>
    first
      | exact h
      | exact inv_process_shift_in _ h
      | exact inv_process_shift_out _ h

theorem inv_viaStep (s : VIAState) (h : viaIrqInv s) : viaIrqInv (viaStep s) := by
  simp only [viaStep, viaTickBody]
  exact inv_viaTickShift _ (inv_viaTickTimer2 _ (inv_viaTickTimer1 _ (inv_viaTickCA2 _ h)))

theorem inv_viaRunAux (fuel : Nat) : ∀ (s : VIAState) (t : Int), viaIrqInv s →
    viaIrqInv (viaRunAux fuel s t) := by
  induction fuel with
  | zero => intro s t h; exact h
  | succ n ih =>
    intro s t h
    rw [viaRunAux_succ]
    split_ifs
    · exact ih _ _ (inv_viaStep _ h)
    · exact h

theorem inv_via_execute_to (s : VIAState) (t : Int) (h : viaIrqInv s) :
    viaIrqInv (via_execute_to s t) :=
  inv_viaRunAux _ s t h

theorem inv_via_execute (s : VIAState) (clock : Nat) (h : viaIrqInv s) :
    viaIrqInv (via_execute s clock) :=
  inv_via_execute_to s _ h

theorem inv_via_store_iorb (s : VIAState) (v : Nat) (h : viaIrqInv s) :
    viaIrqInv (via_store_iorb s v) := by
  simp only [via_store_iorb]
  split_ifs <;> exact inv_clear_interrupt _ _ h

theorem inv_via_store_iora (s : VIAState) (v : Nat) (h : viaIrqInv s) :
    viaIrqInv (via_store_iora s v) := by
  simp only [via_store_iora]
  split_ifs <;> exact inv_clear_interrupt _ _ h

theorem inv_via_store_t1ch (s : VIAState) (v : Nat) (h : viaIrqInv s) :
    viaIrqInv (via_store_t1ch s v) := by
  simp only [via_store_t1ch]
  exact inv_set_port_b _ _ _ h

theorem inv_via_store_t2ch (s : VIAState) (v : Nat) (h : viaIrqInv s) :
    viaIrqInv (via_store_t2ch s v) := by
  simp only [via_store_t2ch]
  exact inv_clear_interrupt _ _ h

theorem inv_via_store_sr (s : VIAState) (v : Nat) (h : viaIrqInv s) :
    viaIrqInv (via_store_sr s v) := by
  simp only [via_store_sr]
  split_ifs <;>
    first
      | exact h
      | exact inv_initialize_shift_in _ h
      | exact inv_initialize_shift_out _ h

theorem inv_via_store_ifr (s : VIAState) (v : Nat) (h : viaIrqInv s) :
    viaIrqInv (via_store_ifr s v) :=
  inv_clear_interrupt _ _ h

theorem inv_via_store_ier (s : VIAState) (v : Nat) :
    viaIrqInv (via_store_ier s v) := by
  simp only [via_store_ier]
  split_ifs <;> exact inv_process_irq _

theorem inv_via_store8_reg (s : VIAState) (offset value : Nat) (s' : VIAState)
    (h : viaIrqInv s) (heq : via_store8_reg s offset value = some s') :
    viaIrqInv s' := by
  unfold via_store8_reg at heq
  by_cases h0 : offset = 0
  · rw [if_pos h0] at heq
    injection heq with heq
    subst heq
    exact inv_via_store_iorb _ _ h
  rw [if_neg h0] at heq
  by_cases h1 : offset = 1
  · rw [if_pos h1] at heq
    injection heq with heq
    subst heq
    exact inv_via_store_iora _ _ h
  rw [if_neg h1] at heq
  by_cases h2 : offset = 2
  · rw [if_pos h2] at heq
    injection heq with heq
    subst heq
    exact h
  rw [if_neg h2] at heq
  by_cases h3 : offset = 3
  · rw [if_pos h3] at heq
    injection heq with heq
    subst heq
    exact h
  rw [if_neg h3] at heq
  by_cases h4 : offset = 4
  · rw [if_pos h4] at heq
    injection heq with heq
    subst heq
    exact h
  rw [if_neg h4] at heq
  by_cases h5 : offset = 5
  · rw [if_pos h5] at heq
    injection heq with heq
    subst heq
    exact inv_via_store_t1ch _ _ h
  rw [if_neg h5] at heq
  by_cases h6 : offset = 6
  · rw [if_pos h6] at heq
    injection heq with heq
    subst heq
    exact h
  rw [if_neg h6] at heq
  by_cases h7 : offset = 7
  · rw [if_pos h7] at heq
    injection heq with heq
    subst heq
    exact h
  rw [if_neg h7] at heq
  by_cases h8 : offset = 8
  · rw [if_pos h8] at heq
    injection heq with heq
    subst heq
    exact h
  rw [if_neg h8] at heq
  by_cases h9 : offset = 9
  · rw [if_pos h9] at heq
    injection heq with heq
    subst heq
    exact inv_via_store_t2ch _ _ h
  rw [if_neg h9] at heq
  by_cases h10 : offset = 10
  · rw [if_pos h10] at heq
    injection heq with heq
    subst heq
    exact inv_via_store_sr _ _ h
  rw [if_neg h10] at heq
  by_cases h11 : offset = 11
  · rw [if_pos h11] at heq
    injection heq with heq
    subst heq
    exact h
  rw [if_neg h11] at heq
  by_cases h12 : offset = 12
  · rw [if_pos h12] at heq
    injection heq with heq
    subst heq
    exact h
  rw [if_neg h12] at heq
  by_cases h13 : offset = 13
  · rw [if_pos h13] at heq
    injection heq with heq
    subst heq
    exact inv_via_store_ifr _ _ h
  rw [if_neg h13] at heq
  by_cases h14 : offset = 14
  · rw [if_pos h14] at heq
    injection heq with heq
    subst heq
    exact inv_via_store_ier _ _
  rw [if_neg h14] at heq
  by_cases h15 : offset = 15
  · rw [if_pos h15] at heq
    injection heq with heq
    subst heq
    exact h
  rw [if_neg h15] at heq
  exact absurd heq (by simp)

theorem inv_via_load_iorb (s : VIAState) (h : viaIrqInv s) :
    viaIrqInv (via_load_iorb s).2 := by
  simp only [via_load_iorb]
  exact inv_clear_interrupt _ _ h

theorem inv_via_load_iora (s : VIAState) (h : viaIrqInv s) :
    viaIrqInv (via_load_iora s).2 := by
  simp only [via_load_iora]
  split_ifs <;> exact inv_clear_interrupt _ _ h

theorem inv_via_load_sr (s : VIAState) (h : viaIrqInv s) :
    viaIrqInv (via_load_sr s).2 := by
  simp only [via_load_sr]
  split_ifs <;>
    first
      | exact h
      | exact inv_initialize_shift_in _ h
      | exact inv_initialize_shift_out _ h

theorem inv_via_load8_reg (s : VIAState) (offset : Nat) (v : Nat) (s' : VIAState)
    (h : viaIrqInv s) (heq : via_load8_reg s offset = some (v, s')) :
    viaIrqInv s' := by
  unfold via_load8_reg at heq
  by_cases h0 : offset = 0
  · rw [if_pos h0] at heq
    injection heq with heq
    rw [show s' = (via_load_iorb s).2 from congrArg Prod.snd heq.symm]
    exact inv_via_load_iorb _ h
  rw [if_neg h0] at heq
  by_cases h1 : offset = 1
  · rw [if_pos h1] at heq
    injection heq with heq
    rw [show s' = (via_load_iora s).2 from congrArg Prod.snd heq.symm]
    exact inv_via_load_iora _ h
  rw [if_neg h1] at heq
  by_cases h2 : offset = 2
  · rw [if_pos h2] at heq
    injection heq with heq
    rw [show s' = s from congrArg Prod.snd heq.symm]
    exact h
  rw [if_neg h2] at heq
  by_cases h3 : offset = 3
  · rw [if_pos h3] at heq
    injection heq with heq
    rw [show s' = s from congrArg Prod.snd heq.symm]
    exact h
  rw [if_neg h3] at heq
  by_cases h4 : offset = 4
  · rw [if_pos h4] at heq
    injection heq with heq
    rw [show s' = (clear_interrupt s 64) from congrArg Prod.snd heq.symm]
    exact inv_clear_interrupt _ _ h
  rw [if_neg h4] at heq
  by_cases h5 : offset = 5
  · rw [if_pos h5] at heq
    injection heq with heq
    rw [show s' = s from congrArg Prod.snd heq.symm]
    exact h
  rw [if_neg h5] at heq
  by_cases h6 : offset = 6
  · rw [if_pos h6] at heq
    injection heq with heq
    rw [show s' = s from congrArg Prod.snd heq.symm]
    exact h
  rw [if_neg h6] at heq
  by_cases h7 : offset = 7
  · rw [if_pos h7] at heq
    injection heq with heq
    rw [show s' = s from congrArg Prod.snd heq.symm]
    exact h
  rw [if_neg h7] at heq
  by_cases h8 : offset = 8
  · rw [if_pos h8] at heq
    injection heq with heq
    rw [show s' = (clear_interrupt s 32) from congrArg Prod.snd heq.symm]
    exact inv_clear_interrupt _ _ h
  rw [if_neg h8] at heq
  by_cases h9 : offset = 9
  · rw [if_pos h9] at heq
    injection heq with heq
    rw [show s' = s from congrArg Prod.snd heq.symm]
    exact h
  rw [if_neg h9] at heq
  by_cases h10 : offset = 10
  · rw [if_pos h10] at heq
    injection heq with heq
    rw [show s' = (via_load_sr s).2 from congrArg Prod.snd heq.symm]
    exact inv_via_load_sr _ h
  rw [if_neg h10] at heq
  by_cases h11 : offset = 11
  · rw [if_pos h11] at heq
    injection heq with heq
    rw [show s' = s from congrArg Prod.snd heq.symm]
    exact h
  rw [if_neg h11] at heq
  by_cases h12 : offset = 12
  · rw [if_pos h12] at heq
    injection heq with heq
    rw [show s' = s from congrArg Prod.snd heq.symm]
    exact h
  rw [if_neg h12] at heq
  by_cases h13 : offset = 13
  · rw [if_pos h13] at heq
    injection heq with heq
    rw [show s' = s from congrArg Prod.snd heq.symm]
    exact h
  rw [if_neg h13] at heq
  by_cases h14 : offset = 14
  · rw [if_pos h14] at heq
    injection heq with heq
    rw [show s' = s from congrArg Prod.snd heq.symm]
    exact h
  rw [if_neg h14] at heq
  by_cases h15 : offset = 15
  · rw [if_pos h15] at heq
    injection heq with heq
    rw [show s' = s from congrArg Prod.snd heq.symm]
    exact h
  rw [if_neg h15] at heq
  exact absurd heq (by simp)

theorem inv_via_store8 (s : VIAState) (clock offset value : Nat) (s' : VIAState)
    (h : viaIrqInv s) (heq : via_store8 s clock offset value = some s') :
    viaIrqInv s' := by
  simp only [via_store8] at heq
  cases hreg : via_store8_reg (via_execute_to s ((clock : Int) - 1)) offset value with
  | none => rw [hreg] at heq; exact absurd heq (by simp)
  | some s2 =>
    rw [hreg] at heq
    simp only [Option.some.injEq] at heq
    subst heq
    exact inv_via_execute_to _ _
      (inv_via_store8_reg _ _ _ _ (inv_via_execute_to _ _ h) hreg)

theorem inv_via_load8 (s : VIAState) (clock offset : Nat) (v : Nat) (s' : VIAState)
    (h : viaIrqInv s) (heq : via_load8 s clock offset = some (v, s')) :
    viaIrqInv s' := by
  simp only [via_load8] at heq
  cases hreg : via_load8_reg (via_execute_to s ((clock : Int) - 1)) offset with
  | none => rw [hreg] at heq; exact absurd heq (by simp)
  | some p =>
    rw [hreg] at heq
    simp only [Option.some.injEq, Prod.mk.injEq] at heq
    obtain ⟨h1, h2⟩ := heq
    subst h2
    exact inv_via_execute_to _ _
      (inv_via_load8_reg _ _ _ _ (inv_via_execute_to _ _ h) hreg)

theorem inv_via_reset (s : VIAState) : viaIrqInv (via_reset s) := by
  show ((0 : Nat) &&& 128 ≠ 0) ↔ ((0 : Nat) &&& 0 &&& 127 ≠ 0)
  decide

theorem mload8_mstore8_same (m : CpuMem) (a b v : Nat) (h : mask16 b = mask16 a) :
    mload8 (mstore8 m a v) b = mask8 v := by
  simp only [mload8, mstore8, h, if_pos]
  unfold mask8
  omega

theorem mload8_mstore8_ne (m : CpuMem) (a b v : Nat) (h : mask16 b ≠ mask16 a) :
    mload8 (mstore8 m a v) b = mload8 m b := by
  simp only [mload8, mstore8]
  rw [if_neg h]

theorem mload8_congr (m : CpuMem) (a b : Nat) (h : mask16 a = mask16 b) :
    mload8 m a = mload8 m b := by
  unfold mload8
  rw [h]

theorem ccr_roundtrip (f : CPUFlags) :
    ((ccrByte f &&& 32 != 0) : Bool) = f.carry_h
    ∧ ((ccrByte f &&& 16 != 0) : Bool) = f.carry_i
    ∧ ((ccrByte f &&& 8 != 0) : Bool) = f.carry_n
    ∧ ((ccrByte f &&& 4 != 0) : Bool) = f.carry_z
    ∧ ((ccrByte f &&& 2 != 0) : Bool) = f.carry_v
    ∧ ((ccrByte f &&& 1 != 0) : Bool) = f.carry_c
    ∧ ccrByte f &&& 192 = 192
    ∧ ccrByte f < 256 := by
  rcases f with ⟨fh, fi, fn, fz, fv, fc⟩
  cases fh <;> cases fi <;> cases fn <;> cases fz <;> cases fv <;> cases fc <;> decide

/-- Claim C4: pushing the register context stores, from the highest
address downward, PCL, PCH, XL, XH, A, B and the CCR byte with bits 6-7
forced to 1, leaves SP exactly 7 below its start, NMI/IRQ/SWI servicing
writes exactly this frame, and RTI (_pop_all_registers) restores PC, X, A,
B and the six flags with SP back at its starting value. -/
theorem interrupt_frame_theorem (m : Machine)
    (hpc : m.regs.program_counter < 65536) (hx : m.regs.index < 65536)
    (ha : m.regs.acc_a < 256) (hb : m.regs.acc_b < 256)
    (hsp : m.regs.stack_pointer < 65536) :
    mload8 (push_all_registers m).mem m.regs.stack_pointer
        = m.regs.program_counter % 256
    ∧ mload8 (push_all_registers m).mem (sub16 m.regs.stack_pointer 1)
        = m.regs.program_counter / 256
    ∧ mload8 (push_all_registers m).mem (sub16 m.regs.stack_pointer 2)
        = m.regs.index % 256
    ∧ mload8 (push_all_registers m).mem (sub16 m.regs.stack_pointer 3)
        = m.regs.index / 256
    ∧ mload8 (push_all_registers m).mem (sub16 m.regs.stack_pointer 4) = m.regs.acc_a
    ∧ mload8 (push_all_registers m).mem (sub16 m.regs.stack_pointer 5) = m.regs.acc_b
    ∧ mload8 (push_all_registers m).mem (sub16 m.regs.stack_pointer 6) = ccrByte m.flags
    ∧ ccrByte m.flags &&& 192 = 192
    ∧ (push_all_registers m).regs.stack_pointer = sub16 m.regs.stack_pointer 7
    ∧ (pop_all_registers (push_all_registers m)).regs = m.regs
    ∧ (pop_all_registers (push_all_registers m)).flags = m.flags
    ∧ rti (push_all_registers m) = pop_all_registers (push_all_registers m)
    ∧ (serviceNMI m).mem = (push_all_registers m).mem
    ∧ (serviceIRQ m).mem = (push_all_registers m).mem
    ∧ (serviceNMI m).regs.stack_pointer = sub16 m.regs.stack_pointer 7
    ∧ (serviceIRQ m).regs.stack_pointer = sub16 m.regs.stack_pointer 7
    ∧ (swi m).mem = (push_all_registers
        { m with regs := { m.regs with
            program_counter := mask16 (m.regs.program_counter + 1) } }).mem := by
  have hPCL : mload8 (push_all_registers m).mem m.regs.stack_pointer
      = m.regs.program_counter % 256 := by
    simp only [push_all_registers, mstore16]
    rw [mload8_mstore8_ne _ _ _ _ (by unfold mask16 sub16; omega),
        mload8_mstore8_ne _ _ _ _ (by unfold mask16 sub16; omega),
        mload8_mstore8_ne _ _ _ _ (by unfold mask16 sub16; omega),
        mload8_mstore8_ne _ _ _ _ (by unfold mask16 sub16; omega),
        mload8_mstore8_ne _ _ _ _ (by unfold mask16 sub16; omega),
        mload8_mstore8_same _ _ _ _ (by unfold mask16 sub16; omega)]
    rw [and255_eq_mod]
    unfold mask8 mask16
    omega
  have hPCH : mload8 (push_all_registers m).mem (sub16 m.regs.stack_pointer 1)
      = m.regs.program_counter / 256 := by
    simp only [push_all_registers, mstore16]
    rw [mload8_mstore8_ne _ _ _ _ (by unfold mask16 sub16; omega),
        mload8_mstore8_ne _ _ _ _ (by unfold mask16 sub16; omega),
        mload8_mstore8_ne _ _ _ _ (by unfold mask16 sub16; omega),
        mload8_mstore8_ne _ _ _ _ (by unfold mask16 sub16; omega),
        mload8_mstore8_ne _ _ _ _ (by unfold mask16 sub16; omega),
        mload8_mstore8_ne _ _ _ _ (by unfold mask16 sub16; omega),
        mload8_mstore8_same _ _ _ _ (by unfold mask16 sub16; omega)]
    rw [shiftRight8_eq_div, and255_eq_mod]
    unfold mask8 mask16
    omega
  have hXL : mload8 (push_all_registers m).mem (sub16 m.regs.stack_pointer 2)
      = m.regs.index % 256 := by
    simp only [push_all_registers, mstore16]
    rw [mload8_mstore8_ne _ _ _ _ (by unfold mask16 sub16; omega),
        mload8_mstore8_ne _ _ _ _ (by unfold mask16 sub16; omega),
        mload8_mstore8_ne _ _ _ _ (by unfold mask16 sub16; omega),
        mload8_mstore8_same _ _ _ _ (by unfold mask16 sub16; omega)]
    rw [and255_eq_mod]
    unfold mask8 mask16
    omega
  have hXH : mload8 (push_all_registers m).mem (sub16 m.regs.stack_pointer 3)
      = m.regs.index / 256 := by
    simp only [push_all_registers, mstore16]
    rw [mload8_mstore8_ne _ _ _ _ (by unfold mask16 sub16; omega),
        mload8_mstore8_ne _ _ _ _ (by unfold mask16 sub16; omega),
        mload8_mstore8_ne _ _ _ _ (by unfold mask16 sub16; omega),
        mload8_mstore8_ne _ _ _ _ (by unfold mask16 sub16; omega),
        mload8_mstore8_same _ _ _ _ (by unfold mask16 sub16; omega)]
    rw [shiftRight8_eq_div, and255_eq_mod]
    unfold mask8 mask16
    omega
  have hA : mload8 (push_all_registers m).mem (sub16 m.regs.stack_pointer 4)
      = m.regs.acc_a := by
    simp only [push_all_registers, mstore16]
    rw [mload8_mstore8_ne _ _ _ _ (by unfold mask16 sub16; omega),
        mload8_mstore8_ne _ _ _ _ (by unfold mask16 sub16; omega),
        mload8_mstore8_same _ _ _ _ (by unfold mask16 sub16; omega)]
    unfold mask8
    omega
  have hB : mload8 (push_all_registers m).mem (sub16 m.regs.stack_pointer 5)
      = m.regs.acc_b := by
    simp only [push_all_registers, mstore16]
    rw [mload8_mstore8_ne _ _ _ _ (by unfold mask16 sub16; omega),
        mload8_mstore8_same _ _ _ _ (by unfold mask16 sub16; omega)]
    unfold mask8
    omega
  have hccr := ccr_roundtrip m.flags
  have hCCR : mload8 (push_all_registers m).mem (sub16 m.regs.stack_pointer 6)
      = ccrByte m.flags := by
    simp only [push_all_registers, mstore16]
    rw [mload8_mstore8_same _ _ _ _ (by unfold mask16 sub16; omega)]
    unfold mask8
    omega
  have hSP : (push_all_registers m).regs.stack_pointer = sub16 m.regs.stack_pointer 7 := by
    simp only [push_all_registers]
    unfold mask16 sub16
    omega
  have hX16 : mload16 (push_all_registers m).mem (sub16 m.regs.stack_pointer 3)
      = m.regs.index := by
    unfold mload16
    rw [mload8_congr _ (sub16 m.regs.stack_pointer 3 + 1) (sub16 m.regs.stack_pointer 2)
        (by unfold mask16 sub16; omega)]
    rw [hXH, hXL, shiftLeft8_or_eq _ _ (by omega), and65535_eq_mod]
    omega
  have hPC16 : mload16 (push_all_registers m).mem (sub16 m.regs.stack_pointer 1)
      = m.regs.program_counter := by
    unfold mload16
    rw [mload8_congr _ (sub16 m.regs.stack_pointer 1 + 1) m.regs.stack_pointer
        (by unfold mask16 sub16; omega)]
    rw [hPCH, hPCL, shiftLeft8_or_eq _ _ (by omega), and65535_eq_mod]
    omega
  have hsp7 : ((push_all_registers m).regs.stack_pointer + 7) % 65536
      = m.regs.stack_pointer := by
    rw [hSP]
    unfold sub16
    omega
  have hPopRegs : (pop_all_registers (push_all_registers m)).regs = m.regs := by
    simp only [pop_all_registers, hsp7]
    rw [hB, hA, hX16, hPC16]
  have hPopFlags : (pop_all_registers (push_all_registers m)).flags = m.flags := by
    simp only [pop_all_registers, hsp7]
    rw [hCCR]
    rw [hccr.1, hccr.2.1, hccr.2.2.1, hccr.2.2.2.1, hccr.2.2.2.2.1, hccr.2.2.2.2.2.1]
  exact ⟨hPCL, hPCH, hXL, hXH, hA, hB, hCCR, hccr.2.2.2.2.2.2.1, hSP,
    hPopRegs, hPopFlags, rfl, rfl, rfl, hSP, hSP, rfl⟩

/-- Witness for claim C4 at the concrete registers of spec scenario 3. -/
theorem interrupt_frame_witness :
    frameWitnessMachine.regs.program_counter < 65536
    ∧ mload8 (push_all_registers frameWitnessMachine).mem
        frameWitnessMachine.regs.stack_pointer
        = frameWitnessMachine.regs.program_counter % 256
    ∧ (pop_all_registers (push_all_registers frameWitnessMachine)).regs
        = frameWitnessMachine.regs
    ∧ (pop_all_registers (push_all_registers frameWitnessMachine)).flags
        = frameWitnessMachine.flags := by
  have h := interrupt_frame_theorem frameWitnessMachine (by decide) (by decide)
    (by decide) (by decide) (by decide)
  exact ⟨by decide, h.1, h.2.2.2.2.2.2.2.2.2.1, h.2.2.2.2.2.2.2.2.2.2.1⟩

theorem extract_none_of_bad (line : List Char)
    (h : (line.takeWhile Char.isDigit).isEmpty = true
      ∨ digitsVal (line.takeWhile Char.isDigit) < 1
      ∨ digitsVal (line.takeWhile Char.isDigit) > 32767) :
    extractBasicLineNumber line = none := by
  unfold extractBasicLineNumber
  by_cases hd : (line.takeWhile Char.isDigit).isEmpty = true
  · rw [if_pos hd]
  · rw [if_neg hd]
    rcases h with h1 | h1 | h1
    · exact absurd h1 hd
    · rw [if_pos (Or.inl h1)]
    · rw [if_pos (Or.inr h1)]

theorem loadBasicLines_error (lines : List (List Char)) : ∀ (m : JRMem) (addr : Nat),
    (∃ raw ∈ lines, badBasicLine raw) → loadBasicLines m addr lines = none := by
  induction lines with
  | nil =>
    intro m addr h
    rcases h with ⟨raw, hmem, _⟩
    cases hmem
  | cons head tail ih =>
    intro m addr h
    unfold loadBasicLines
    rcases h with ⟨raw, hmem, hbad⟩
    rcases List.mem_cons.mp hmem with heq | htail
    · subst heq
      obtain ⟨hne, hbad2⟩ := hbad
      rw [if_neg hne, extract_none_of_bad _ hbad2]
    · by_cases hskip : (canonicalizeBasicLine head).isEmpty = true
      · rw [if_pos hskip]
        exact ih m addr ⟨raw, htail, hbad⟩
      · rw [if_neg hskip]
        cases hext : extractBasicLineNumber (canonicalizeBasicLine head) with
        | none => rfl
        | some p =>
          obtain ⟨number, content⟩ := p
          dsimp only
          split_ifs with haddr
          · rfl
          · cases henc : encodeBasicContent content with
            | none => rfl
            | some bytes =>
              dsimp only
              cases hstore : storeContentBytes (sys_store16 m addr number)
                  (addr + 2) bytes with
              | none => rfl
              | some q =>
                obtain ⟨m2, addr2⟩ := q
                dsimp only
                split_ifs with h72 haddr2
                · rfl
                · rfl
                · exact ih _ _ ⟨raw, htail, hbad⟩

/-- Claim C9: a BASIC text source containing a non-empty line whose
leading decimal number is missing or outside 1..32767 makes load_basic_text
raise ProgramLoadError (modeled as none); conversely a line starting with a
decimal number in 1..32767 passes _extract_basic_line_number. -/
theorem basic_line_number_theorem :
    (∀ (m : JRMem) (lines : List (List Char)),
        (∃ raw ∈ lines, badBasicLine raw) → load_basic_text m lines = none)
    ∧ (∀ (line : List Char),
        ¬ (line.takeWhile Char.isDigit).isEmpty = true →
        1 ≤ digitsVal (line.takeWhile Char.isDigit) →
        digitsVal (line.takeWhile Char.isDigit) ≤ 32767 →
        extractBasicLineNumber line
          = some (digitsVal (line.takeWhile Char.isDigit),
              (line.drop (line.takeWhile Char.isDigit).length).dropWhile
                Char.isWhitespace)) := by
  constructor
  · intro m lines h
    unfold load_basic_text
    rw [loadBasicLines_error lines m 0x0246 h]
  · intro line h1 h2 h3
    unfold extractBasicLineNumber
    rw [if_neg h1, if_neg (by omega)]

/-- Witness for claim C9 on the concrete lines 99999 GOTO 10 (rejected)
and 10 PRINT A (accepted). -/
theorem basic_line_number_witness :
    badBasicLine (String.toList "99999 GOTO 10")
    ∧ load_basic_text freshJRMem [String.toList "99999 GOTO 10"] = none
    ∧ extractBasicLineNumber (String.toList "10 PRINT A")
        = some (10, String.toList "PRINT A") := by
  refine ⟨by decide, ?_, ?_⟩
  · exact basic_line_number_theorem.1 freshJRMem _
      ⟨String.toList "99999 GOTO 10", by simp, by decide⟩
  · have h := basic_line_number_theorem.2 (String.toList "10 PRINT A")
      (by decide) (by decide) (by decide)
    rw [h]
    decide

/-- Claim C3: after every VIA operation: any register store8 or load8, any
CA1/CA2/CB1/CB2 edge, execute, and reset, IFR bit 7 is set if and only if
(IFR & IER & 0x7F) != 0 (stated via viaIrqInv, written in the source's
operand order IER & IFR & 0x7F). -/
theorem via_ifr_bit7_theorem :
    (∀ (s : VIAState) (clock offset value : Nat) (s' : VIAState),
        viaIrqInv s → via_store8 s clock offset value = some s' → viaIrqInv s')
    ∧ (∀ (s : VIAState) (clock offset : Nat) (v : Nat) (s' : VIAState),
        viaIrqInv s → via_load8 s clock offset = some (v, s') → viaIrqInv s')
    ∧ (∀ (s : VIAState) (state : Nat), viaIrqInv s → viaIrqInv (set_ca1 s state))
    ∧ (∀ (s : VIAState) (state : Nat), viaIrqInv s → viaIrqInv (set_ca2 s state))
    ∧ (∀ (s : VIAState) (state : Nat), viaIrqInv s → viaIrqInv (set_cb1 s state))
    ∧ (∀ (s : VIAState) (state : Nat), viaIrqInv s → viaIrqInv (set_cb2 s state))
    ∧ (∀ (s : VIAState) (clock : Nat), viaIrqInv s → viaIrqInv (via_execute s clock))
    ∧ (∀ s : VIAState, viaIrqInv (via_reset s)) := by
  refine ⟨?_, ?_, inv_set_ca1, inv_set_ca2, inv_set_cb1, inv_set_cb2, ?_, inv_via_reset⟩
  · intro s clock offset value s' h heq
    exact inv_via_store8 s clock offset value s' h heq
  · intro s clock offset v s' h heq
    exact inv_via_load8 s clock offset v s' h heq
  · intro s clock h
    exact inv_via_execute s clock h

/-- Witness for claim C3 on concrete operations from the reset state. -/
theorem via_ifr_bit7_witness :
    viaIrqInv ({} : VIAState)
    ∧ viaIrqInv ((via_store8 {} 0 14 192).getD {})
    ∧ viaIrqInv ((via_load8 {} 3 4).getD (0, {})).2
    ∧ viaIrqInv (set_ca1 {} 1)
    ∧ viaIrqInv (via_execute {} 5)
    ∧ viaIrqInv (via_reset {}) := by
  refine ⟨by decide, ?_, ?_, ?_, ?_, ?_⟩
  · exact via_ifr_bit7_theorem.1 {} 0 14 192 _ (by decide) (by decide)
  · exact via_ifr_bit7_theorem.2.1 {} 3 4 ((via_load8 {} 3 4).getD (0, {})).1 _
      (by decide) (by decide)
  · exact via_ifr_bit7_theorem.2.2.1 {} 1 (by decide)
  · exact via_ifr_bit7_theorem.2.2.2.2.2.2.1 {} 5 (by decide)
  · exact via_ifr_bit7_theorem.2.2.2.2.2.2.2 {}



end Spec2Proof
